import Mathlib

/-!
Verification development for the Observatory-Global core pipeline
(GDELT downloader → GKG parser → signal converter → flow detector).

Python strings are embedded as lists of characters (`PyStr`), Python
`float` values as `PyFloat` (finite values as exact rationals — 53-bit
rounding of finite results is the one idealization — plus the infinities
and nan, with the exact double-overflow boundary), Python `int` as `ℤ`,
and `datetime` values as integer seconds since the epoch.  Fallible Python
code is embedded with `Option`/`Except`: an uncaught exception becomes an
`Except.error`, a caught-and-skipped one becomes `none`.
-/

set_option maxRecDepth 6000

/-- Embedding of a Python `str` as a list of characters. -/
abbrev PyStr := List Char

/-- Embedding of Python `str.split(sep)` for a one-character separator:
splitting the empty string gives `[""]`, and separators at the ends produce
empty chunks, exactly as in Python. -/
def pySplit (sep : Char) : PyStr → List PyStr
  | [] => [[]]
  | c :: cs =>
    let r := pySplit sep cs
    if c = sep then [] :: r else (c :: r.headD []) :: r.tail

/-- Drop leading whitespace (helper for `pyStrip`). -/
def pyStripLeft (s : PyStr) : PyStr := s.dropWhile Char.isWhitespace

/-- Embedding of Python `str.strip()`: drop leading and trailing whitespace. -/
def pyStrip (s : PyStr) : PyStr :=
  ((pyStripLeft s).reverse.dropWhile Char.isWhitespace).reverse

/-- Continuation of a digit run: further digits, with single underscores
allowed only between digits (Python's numeric-literal rule); returns the
digits with the underscores removed. -/
def digitRunGo : PyStr → Option PyStr
  | [] => some []
  | ['_'] => none
  | '_' :: c :: cs =>
    if c.isDigit then (digitRunGo cs).map (fun t => c :: t) else none
  | c :: cs =>
    if c.isDigit then (digitRunGo cs).map (fun t => c :: t) else none

/-- A non-empty digit run (underscores between digits allowed), cleaned of
underscores. -/
def digitRun? : PyStr → Option PyStr
  | [] => none
  | c :: cs =>
    if c.isDigit then (digitRunGo cs).map (fun t => c :: t) else none

/-- A possibly-empty digit run, cleaned of underscores. -/
def digitRunOpt? (s : PyStr) : Option PyStr :=
  if s.isEmpty then some [] else digitRun? s

/-- Value of a (cleaned) digit list. -/
def digitsVal (l : PyStr) : ℕ :=
  l.foldl (fun acc c => acc * 10 + (c.toNat - 48)) 0

/-- Embedding of Python `int(s)` on decimal strings: optional surrounding
whitespace, optional sign, then a non-empty digit run (underscores between
digits allowed).  (Unicode digits and other bases are outside the modelled
grammar.) -/
def pyInt? (s : PyStr) : Option ℤ :=
  match pyStrip s with
  | '-' :: rest => (digitRun? rest).map (fun ds => -(digitsVal ds : ℤ))
  | '+' :: rest => (digitRun? rest).map (fun ds => (digitsVal ds : ℤ))
  | t => (digitRun? t).map (fun ds => (digitsVal ds : ℤ))

/-- Embedding of a Python `float` value: a finite value kept as an exact
rational, positive or negative infinity, or nan. -/
inductive PyFloat where
  | finite (q : ℚ)
  | inf
  | negInf
  | nan
  deriving DecidableEq, Repr

/-- Negation of a Python float (the leading `-` sign of a literal). -/
def pyNegate : PyFloat → PyFloat
  | .finite q => .finite (-q)
  | .inf => .negInf
  | .negInf => .inf
  | .nan => .nan

/-- Mantissa of a decimal literal: digits with at most one dot, at least
one digit overall; returns `(n, k, d)` where the mantissa value is
`n / 10^k` and `d` bounds the digit count (`n < 10^d`). -/
def parseMantissa? (s : PyStr) : Option (ℕ × ℕ × ℕ) :=
  match pySplit '.' s with
  | [intPart] => (digitRun? intPart).map (fun ds => (digitsVal ds, 0, ds.length))
  | [intPart, fracPart] =>
    if intPart.isEmpty ∧ fracPart.isEmpty then none
    else
      match digitRunOpt? intPart, digitRunOpt? fracPart with
      | some ids, some fds =>
        some (digitsVal ids * 10 ^ fds.length + digitsVal fds, fds.length,
          ids.length + fds.length)
      | _, _ => none
  | _ => none

/-- Exponent of a decimal literal: optional sign, non-empty digit run. -/
def parseExp? (s : PyStr) : Option ℤ :=
  match s with
  | '-' :: rest => (digitRun? rest).map (fun ds => -(digitsVal ds : ℤ))
  | '+' :: rest => (digitRun? rest).map (fun ds => (digitsVal ds : ℤ))
  | t => (digitRun? t).map (fun ds => (digitsVal ds : ℤ))

/-- The exact IEEE-754 double overflow boundary under round-to-nearest:
a decimal whose value reaches `2^1024 - 2^970` converts to infinity.
The constant is written as its 309-digit decimal numeral so that kernel
evaluation of comparisons against it is cheap; `overflowBound_eq` below
proves it equal to `2^1024 - 2^970`. -/
def overflowBound : ℚ :=
  ((179769313486231580793728971405303415079934132710037826936173778980444968292764750946649017977587207096330286416692887910946555547851940402630657488671505820681908902000708383676273854845817711531764475730270069855571366959622842914819860834936475292719074168444365510704342711559699508093042880177904174497792 : ℕ) : ℚ)

/-- Value of an unsigned decimal literal with mantissa `n / 10^k` (with
`n < 10^d`) and exponent `e`, i.e. `n · 10^(e-k)`, as Python `float()`
converts it: infinity past the double-overflow boundary, exactly `0.0`
for magnitudes certainly below the subnormal range, and otherwise the
exact rational (finite results ignore 53-bit rounding, as everywhere in
this embedding). -/
def decimalToPyFloat (n k d : ℕ) (e : ℤ) : PyFloat :=
  if n = 0 then .finite 0
  else if 309 ≤ e - k then .inf
  else if (d : ℤ) + e - k ≤ -324 then .finite 0
  else
    let q : ℚ :=
      if 0 ≤ e - k then ((n * 10 ^ (e - k).toNat : ℕ) : ℚ)
      else Rat.divInt (n : ℤ) (10 ^ (k - e).toNat)
    if overflowBound ≤ q then .inf else .finite q

/-- Unsigned body of `float(s)` on an already lowercased, stripped string:
the `inf`/`infinity`/`nan` keywords, or a decimal with optional
exponent. -/
def pyFloatCore? (t : PyStr) : Option PyFloat :=
  if t = "inf".toList ∨ t = "infinity".toList then some .inf
  else if t = "nan".toList then some .nan
  else
    match pySplit 'e' t with
    | [m] =>
      (parseMantissa? m).map (fun nkd => decimalToPyFloat nkd.1 nkd.2.1 nkd.2.2 0)
    | [m, ex] => do
      let nkd ← parseMantissa? m
      let e ← parseExp? ex
      some (decimalToPyFloat nkd.1 nkd.2.1 nkd.2.2 e)
    | _ => none

/-- Embedding of Python `float(s)`: optional surrounding whitespace and
sign (case-insensitive), then a keyword or decimal-with-exponent literal,
with overflow to infinity.  (Only underscore placement, unicode digits and
53-bit rounding of finite values are outside the modelled semantics; the
underscore rule itself is modelled.) -/
def pyFloat? (s : PyStr) : Option PyFloat :=
  match (pyStrip s).map Char.toLower with
  | '-' :: rest => (pyFloatCore? rest).map pyNegate
  | '+' :: rest => pyFloatCore? rest
  | t => pyFloatCore? t

/-- The finite fragment of `float(s)`, used for the location coordinates:
the locations model keeps coordinates as rationals, so a coordinate
parsing to a non-finite float (which the source would store verbatim) is
outside its carrier and treated as a dropped block; no settled claim
concerns such blocks. -/
def pyFloatFinite? (s : PyStr) : Option ℚ :=
  match pyFloat? s with
  | some (.finite q) => some q
  | _ => none

/-- Truncation toward zero, the semantics of Python `int(f)` on a finite
float. -/
def pyTrunc (q : ℚ) : ℤ := if 0 ≤ q then ⌊q⌋ else -⌊-q⌋

/-- Outcome of Python `int(f)` on a float: an integer, or one of the two
exception classes it can raise. -/
inductive IntOfFloatResult where
  | ok (z : ℤ)
  | valueError
  | overflowError
  deriving DecidableEq, Repr

/-- Python `int(f)` on a float: truncation toward zero when finite,
`ValueError` on nan, `OverflowError` on an infinity. -/
def intOfFloat : PyFloat → IntOfFloatResult
  | .finite q => .ok (pyTrunc q)
  | .nan => .valueError
  | .inf => .overflowError
  | .negInf => .overflowError

/-!  Parsed-record data model, from `app/services/the GKG parser module`. -/

/-- Parsed location from `V2EnhancedLocations` (dataclass `GKGLocation` of
the GKG parser module in `app/services`): note it has a single `full_name` field and no
`country_name`/`location_name`. -/
structure GKGLocation where
  location_type : ℤ
  full_name : PyStr
  country_code : PyStr
  adm1_code : PyStr := []
  adm2_code : PyStr := []
  latitude : ℚ := 0
  longitude : ℚ := 0
  feature_id : PyStr := []
  char_offset : ℤ := 0
  deriving DecidableEq, Repr

/-- Parsed sentiment from `V2Tone` (dataclass `GKGTone` of
the GKG parser module in `app/services`): the overall score field is named
`tone`.  The sentiment fields hold whatever Python floats the tone parser
stores, so they live in the full `PyFloat` carrier; `word_count` comes
from `int(...)` and is an integer. -/
structure GKGTone where
  tone : PyFloat := .finite 0
  positive_pct : PyFloat := .finite 0
  negative_pct : PyFloat := .finite 0
  polarity : PyFloat := .finite 0
  activity_density : PyFloat := .finite 0
  self_group_ref : PyFloat := .finite 0
  word_count : ℤ := 0
  deriving DecidableEq, Repr

/-- Parsed count entry from `V2Counts` (dataclass `GKGCount`). -/
structure GKGCount where
  count_type : PyStr
  number : ℤ
  object_type : PyStr := []
  location : Option GKGLocation := none
  deriving DecidableEq, Repr

/-- Complete parsed GKG record (dataclass `GKGRecord`); `datetime` fields
are embedded as integer seconds since the epoch (UTC). -/
structure GKGRecord where
  record_id : PyStr
  timestamp : ℤ
  source_collection : ℤ := 1
  source_name : PyStr := []
  source_url : PyStr := []
  themes : List PyStr := []
  enhanced_themes : List (PyStr × ℤ) := []
  locations : List GKGLocation := []
  persons : List PyStr := []
  organizations : List PyStr := []
  tone : GKGTone := {}
  counts : List GKGCount := []
  gcam : PyStr := []
  sharing_image : PyStr := []
  raw_line : PyStr := []
  line_number : ℤ := 0
  deriving DecidableEq, Repr

/-- The all-zero tone object `GKGTone()` used as the parser's default. -/
def zeroTone : GKGTone := {}

/-- The seven `float(values[i])` conversions of the `try` block of
`parse_v2_tone`, evaluated left to right: the first `ValueError` (a
`none`) fails the whole chain.  `float()` itself raises nothing else on a
string, so this stage cannot raise `OverflowError`. -/
def parseToneFloats (vs : List PyStr) :
    Option (PyFloat × PyFloat × PyFloat × PyFloat × PyFloat × PyFloat × PyFloat) := do
  let a ← pyFloat? (vs.getD 0 [])
  let b ← pyFloat? (vs.getD 1 [])
  let c ← pyFloat? (vs.getD 2 [])
  let d ← pyFloat? (vs.getD 3 [])
  let e ← pyFloat? (vs.getD 4 [])
  let f ← pyFloat? (vs.getD 5 [])
  let g ← pyFloat? (vs.getD 6 [])
  some (a, b, c, d, e, f, g)

/-- The body of the `try` block of `parse_v2_tone`.  The handler
`except (ValueError, IndexError)` catches a float-parse failure and the
`ValueError` of `int(nan)` — both yield `.ok none`, the caught path that
returns the default tone — but `OverflowError` is not a subclass of either
(`issubclass(OverflowError, (ValueError, IndexError))` is `False`), so
`int(float(values[6]))` on an infinite seventh value propagates out of
`parse_v2_tone`: that is the `.error` case. -/
def parseToneValues (vs : List PyStr) : Except PyStr (Option GKGTone) :=
  match parseToneFloats vs with
  | none => .ok none
  | some (a, b, c, d, e, f, g) =>
    match intOfFloat g with
    | .ok w =>
      .ok (some { tone := a, positive_pct := b, negative_pct := c,
                  polarity := d, activity_density := e, self_group_ref := f,
                  word_count := w })
    | .valueError => .ok none
    | .overflowError => .error ("OverflowError".toList)

/-- Embedding of `GDELTParser.parse_v2_tone`: empty/blank input, fewer
than seven comma-separated values, any float-parse failure, or a nan
seventh value yields the all-zero `GKGTone`; an infinite seventh value is
an uncaught `OverflowError` (the `.error` case); otherwise the seven
parsed values verbatim. -/
def parse_v2_tone (tone_str : PyStr) : Except PyStr GKGTone :=
  if (pyStrip tone_str).isEmpty then .ok zeroTone
  else if (pySplit ',' tone_str).length < 7 then .ok zeroTone
  else
    match parseToneValues (pySplit ',' tone_str) with
    | .error e => .error e
    | .ok none => .ok zeroTone
    | .ok (some t) => .ok t

/-- Embedding of the per-block body of `parse_v2_locations`: strip the
block, reject blank blocks and blocks with fewer than seven `#`-fields,
then build a `GKGLocation`; any `int`/`float` failure drops the block
(`except (ValueError, IndexError): continue`).  Empty numeric fields
default to `0`; names are copied verbatim, even when empty.  Coordinates
use the finite fragment `pyFloatFinite?` (see its doc comment). -/
def parseLocBlock (block : PyStr) : Option GKGLocation :=
  let b := pyStrip block
  if b.isEmpty then none
  else
    let parts := pySplit '#' b
    if parts.length < 7 then none
    else do
      let lt ← if (parts.getD 0 []).isEmpty then some 0 else pyInt? (parts.getD 0 [])
      let lat ← if 5 < parts.length ∧ ¬(parts.getD 5 []).isEmpty then
          pyFloatFinite? (parts.getD 5 []) else some 0
      let lon ← if 6 < parts.length ∧ ¬(parts.getD 6 []).isEmpty then
          pyFloatFinite? (parts.getD 6 []) else some 0
      let off ← if 8 < parts.length ∧ ¬(parts.getD 8 []).isEmpty then
          pyInt? (parts.getD 8 []) else some 0
      some { location_type := lt,
             full_name := parts.getD 1 [],
             country_code := parts.getD 2 [],
             adm1_code := if 3 < parts.length then parts.getD 3 [] else [],
             adm2_code := if 4 < parts.length then parts.getD 4 [] else [],
             latitude := lat,
             longitude := lon,
             feature_id := if 7 < parts.length then parts.getD 7 [] else [],
             char_offset := off }

/-- Embedding of `GDELTParser.parse_v2_locations`: split the field on `;`
and parse each block independently, dropping the blocks `parseLocBlock`
rejects. -/
def parse_v2_locations (locations_str : PyStr) : List GKGLocation :=
  if (pyStrip locations_str).isEmpty then []
  else (pySplit ';' locations_str).filterMap parseLocBlock

/-!  Adapter data, from `app/adapters/gdelt_adapter.py`. -/

/-- The static country → (latitude, longitude, name) centroid table
`COUNTRY_CENTROIDS` (all fifty entries, coordinates exact). -/
def COUNTRY_CENTROIDS : List (PyStr × (ℚ × ℚ × PyStr)) :=
  [("US".toList, (Rat.divInt 370902 10000, Rat.divInt (-957129) 10000, "United States".toList)),
   ("GB".toList, (Rat.divInt 553781 10000, Rat.divInt (-34360) 10000, "United Kingdom".toList)),
   ("CA".toList, (Rat.divInt 561304 10000, Rat.divInt (-1063468) 10000, "Canada".toList)),
   ("AU".toList, (Rat.divInt (-252744) 10000, Rat.divInt 1337751 10000, "Australia".toList)),
   ("DE".toList, (Rat.divInt 511657 10000, Rat.divInt 104515 10000, "Germany".toList)),
   ("FR".toList, (Rat.divInt 462276 10000, Rat.divInt 22137 10000, "France".toList)),
   ("IT".toList, (Rat.divInt 418719 10000, Rat.divInt 125674 10000, "Italy".toList)),
   ("ES".toList, (Rat.divInt 404637 10000, Rat.divInt (-37492) 10000, "Spain".toList)),
   ("NL".toList, (Rat.divInt 521326 10000, Rat.divInt 52913 10000, "Netherlands".toList)),
   ("BE".toList, (Rat.divInt 505039 10000, Rat.divInt 44699 10000, "Belgium".toList)),
   ("CH".toList, (Rat.divInt 468182 10000, Rat.divInt 82275 10000, "Switzerland".toList)),
   ("AT".toList, (Rat.divInt 475162 10000, Rat.divInt 145501 10000, "Austria".toList)),
   ("SE".toList, (Rat.divInt 601282 10000, Rat.divInt 186435 10000, "Sweden".toList)),
   ("NO".toList, (Rat.divInt 604720 10000, Rat.divInt 84689 10000, "Norway".toList)),
   ("DK".toList, (Rat.divInt 562639 10000, Rat.divInt 95018 10000, "Denmark".toList)),
   ("FI".toList, (Rat.divInt 619241 10000, Rat.divInt 257482 10000, "Finland".toList)),
   ("PL".toList, (Rat.divInt 519194 10000, Rat.divInt 191451 10000, "Poland".toList)),
   ("CZ".toList, (Rat.divInt 498175 10000, Rat.divInt 154730 10000, "Czech Republic".toList)),
   ("RU".toList, (Rat.divInt 615240 10000, Rat.divInt 1053188 10000, "Russia".toList)),
   ("UA".toList, (Rat.divInt 483794 10000, Rat.divInt 311656 10000, "Ukraine".toList)),
   ("TR".toList, (Rat.divInt 389637 10000, Rat.divInt 352433 10000, "Turkey".toList)),
   ("CN".toList, (Rat.divInt 358617 10000, Rat.divInt 1041954 10000, "China".toList)),
   ("JP".toList, (Rat.divInt 362048 10000, Rat.divInt 1382529 10000, "Japan".toList)),
   ("KR".toList, (Rat.divInt 359078 10000, Rat.divInt 1277669 10000, "South Korea".toList)),
   ("IN".toList, (Rat.divInt 205937 10000, Rat.divInt 789629 10000, "India".toList)),
   ("PK".toList, (Rat.divInt 303753 10000, Rat.divInt 693451 10000, "Pakistan".toList)),
   ("BD".toList, (Rat.divInt 236850 10000, Rat.divInt 903563 10000, "Bangladesh".toList)),
   ("ID".toList, (Rat.divInt (-7893) 10000, Rat.divInt 1139213 10000, "Indonesia".toList)),
   ("TH".toList, (Rat.divInt 158700 10000, Rat.divInt 1009925 10000, "Thailand".toList)),
   ("VN".toList, (Rat.divInt 140583 10000, Rat.divInt 1082772 10000, "Vietnam".toList)),
   ("PH".toList, (Rat.divInt 128797 10000, Rat.divInt 1217740 10000, "Philippines".toList)),
   ("MY".toList, (Rat.divInt 42105 10000, Rat.divInt 1019758 10000, "Malaysia".toList)),
   ("SG".toList, (Rat.divInt 13521 10000, Rat.divInt 1038198 10000, "Singapore".toList)),
   ("BR".toList, (Rat.divInt (-142350) 10000, Rat.divInt (-519253) 10000, "Brazil".toList)),
   ("AR".toList, (Rat.divInt (-384161) 10000, Rat.divInt (-636167) 10000, "Argentina".toList)),
   ("MX".toList, (Rat.divInt 236345 10000, Rat.divInt (-1025528) 10000, "Mexico".toList)),
   ("CO".toList, (Rat.divInt 45709 10000, Rat.divInt (-742973) 10000, "Colombia".toList)),
   ("CL".toList, (Rat.divInt (-356751) 10000, Rat.divInt (-715430) 10000, "Chile".toList)),
   ("PE".toList, (Rat.divInt (-91900) 10000, Rat.divInt (-750152) 10000, "Peru".toList)),
   ("VE".toList, (Rat.divInt 64238 10000, Rat.divInt (-665897) 10000, "Venezuela".toList)),
   ("ZA".toList, (Rat.divInt (-305595) 10000, Rat.divInt 229375 10000, "South Africa".toList)),
   ("EG".toList, (Rat.divInt 268206 10000, Rat.divInt 308025 10000, "Egypt".toList)),
   ("NG".toList, (Rat.divInt 90820 10000, Rat.divInt 86753 10000, "Nigeria".toList)),
   ("KE".toList, (Rat.divInt (-236) 10000, Rat.divInt 379062 10000, "Kenya".toList)),
   ("IL".toList, (Rat.divInt 310461 10000, Rat.divInt 348516 10000, "Israel".toList)),
   ("SA".toList, (Rat.divInt 238859 10000, Rat.divInt 450792 10000, "Saudi Arabia".toList)),
   ("AE".toList, (Rat.divInt 234241 10000, Rat.divInt 538478 10000, "United Arab Emirates".toList)),
   ("IR".toList, (Rat.divInt 324279 10000, Rat.divInt 536880 10000, "Iran".toList)),
   ("IQ".toList, (Rat.divInt 332232 10000, Rat.divInt 436793 10000, "Iraq".toList)),
   ("SY".toList, (Rat.divInt 348021 10000, Rat.divInt 389968 10000, "Syria".toList))]

/-- Embedding of `get_country_centroid`: the table entry when the ISO code
is present, otherwise the total fallback `(0.0, 0.0, country_code)`. -/
def get_country_centroid (country_code : PyStr) : ℚ × ℚ × PyStr :=
  match (COUNTRY_CENTROIDS.lookup country_code) with
  | some v => v
  | none => (0, 0, country_code)

/-- Embedding of `normalize_theme_label`.  The prefix-stripping and
title-casing of the source are abstracted to the identity map: no claim in
this development depends on the text of a theme label, only on the length
and sharing of the `theme_labels` list. -/
def normalize_theme_label (theme_code : PyStr) : PyStr := theme_code

/-- Abstraction of `hashlib.md5(...).hexdigest()`: the digest value is
opaque to every claim (only the `"no_url"` sentinel matters), so it is
embedded as the identity on the input string. -/
def mdFiveHexDigest (s : PyStr) : PyStr := s

/-!  Signal schema, from `app/models/gdelt_schemas.py`.  Pydantic field
constraints are embedded as checked smart constructors returning `Option`:
`none` is a `ValidationError`. -/

/-- Schema `GDELTLocation` (the converter's output location type). -/
structure GDELTLocation where
  country_code : PyStr
  country_name : PyStr
  location_name : Option PyStr
  latitude : ℚ
  longitude : ℚ
  location_type : ℤ
  feature_id : Option PyStr
  char_offset : Option ℤ
  mention_count : ℤ
  deriving DecidableEq, Repr

/-- Pydantic validation of `GDELTLocation`: `latitude ∈ [-90, 90]`,
`longitude ∈ [-180, 180]`, `location_type ∈ [1, 5]`, `mention_count ≥ 1`. -/
def mkGDELTLocation (country_code country_name : PyStr)
    (location_name : Option PyStr) (latitude longitude : ℚ)
    (location_type : ℤ) (feature_id : Option PyStr)
    (char_offset : Option ℤ) (mention_count : ℤ) : Option GDELTLocation :=
  if -90 ≤ latitude ∧ latitude ≤ 90 ∧ -180 ≤ longitude ∧ longitude ≤ 180 ∧
      1 ≤ location_type ∧ location_type ≤ 5 ∧ 1 ≤ mention_count then
    some { country_code := country_code, country_name := country_name,
           location_name := location_name, latitude := latitude,
           longitude := longitude, location_type := location_type,
           feature_id := feature_id, char_offset := char_offset,
           mention_count := mention_count }
  else none

/-- Schema `GDELTTone` (the converter's output tone type). -/
structure GDELTTone where
  overall : ℚ
  positive_pct : ℚ
  negative_pct : ℚ
  polarity : ℚ
  activity_density : ℚ
  self_reference : ℚ
  deriving DecidableEq, Repr

/-- Pydantic validation of `GDELTTone`: `overall ∈ [-100, 100]`,
`positive_pct, negative_pct ∈ [0, 100]`, the other three `≥ 0`. -/
def mkGDELTTone (overall positive_pct negative_pct polarity
    activity_density self_reference : ℚ) : Option GDELTTone :=
  if -100 ≤ overall ∧ overall ≤ 100 ∧ 0 ≤ positive_pct ∧ positive_pct ≤ 100 ∧
      0 ≤ negative_pct ∧ negative_pct ≤ 100 ∧ 0 ≤ polarity ∧
      0 ≤ activity_density ∧ 0 ≤ self_reference then
    some { overall := overall, positive_pct := positive_pct,
           negative_pct := negative_pct, polarity := polarity,
           activity_density := activity_density,
           self_reference := self_reference }
  else none

/-- Schema `SourceAttribution` (which upstream sources contributed). -/
structure SourceAttribution where
  gdelt : Bool := false
  google_trends : Bool := false
  wikipedia : Bool := false
  deriving DecidableEq, Repr

/-- Embedding of `SourceAttribution.confidence_score`: 0.7 for the primary
source plus 0.15 for each secondary source (computed in hundredths over a
common denominator, an exact rendering of the float sum). -/
def SourceAttribution.confidence_score (s : SourceAttribution) : ℚ :=
  Rat.divInt ((if s.gdelt then 70 else 0) + (if s.google_trends then 15 else 0) +
    (if s.wikipedia then 15 else 0)) 100

/-- Schema `GDELTSignal`, the normalized analysis-ready unit. -/
structure GDELTSignal where
  signal_id : PyStr
  timestamp : ℤ
  bucket_15min : ℤ
  source_collection_id : ℤ
  locations : List GDELTLocation
  primary_location : GDELTLocation
  themes : List PyStr
  theme_labels : List PyStr
  theme_counts : List (PyStr × ℤ)
  primary_theme : PyStr
  tone : GDELTTone
  intensity : ℚ
  sentiment_label : PyStr
  geographic_precision : PyStr
  persons : Option (List PyStr)
  organizations : Option (List PyStr)
  source_url : Option PyStr
  source_outlet : Option PyStr
  sources : SourceAttribution
  confidence : ℚ
  url_hash : PyStr
  duplicate_count : ℤ
  duplicate_outlets : List PyStr
  deriving DecidableEq, Repr

/-!  The GKGRecord → GDELTSignal converter, `convert_gkg_to_signals`.

The adapter source reads three attributes that the parser's dataclasses do
not define: `record.tone.overall` (the parser field is `tone`), and
`loc.country_name` / `loc.location_name` (the parser only has `full_name`).
At runtime this is an `AttributeError` for every themed record — the
repository's own unit tests assert the successful behaviour, so the code
is a slip (see claims C1/C2).  The embedding below follows the documented
intent: `overall` reads the parser's `tone` field, `location_name` reads
`full_name`, and the underivable `country_name` is filled with the
location's `country_code`; no settled claim depends on `country_name`. -/

/-- Conversion of one parser location into a schema location (the loop
body at the top of `convert_gkg_to_signals`), with `mention_count = 1`;
pydantic validation can reject it (an uncaught `ValidationError`). -/
def toSignalLocation (loc : GKGLocation) : Option GDELTLocation :=
  mkGDELTLocation loc.country_code loc.country_code (some loc.full_name)
    loc.latitude loc.longitude loc.location_type (some loc.feature_id)
    (some loc.char_offset) 1

/-- Locations preparation step of `convert_gkg_to_signals`: convert parsed
locations (first one primary), or synthesize the `"US"`-centroid fallback
location when the record has none.  A pydantic rejection is an uncaught
error. -/
def buildSignalLocations (locs : List GKGLocation) :
    Except PyStr (List GDELTLocation × GDELTLocation) :=
  match locs with
  | [] =>
    let c := get_country_centroid ("US".toList)
    match mkGDELTLocation ("US".toList) c.2.2 none c.1 c.2.1 1 none none 1 with
    | some pl => .ok ([pl], pl)
    | none => .error ("ValidationError".toList)
  | _ :: _ =>
    match locs.mapM toSignalLocation with
    | none => .error ("ValidationError".toList)
    | some [] => .error ("ValidationError".toList)
    | some (l :: ls) => .ok (l :: ls, l)

/-- Tone conversion step of `convert_gkg_to_signals` (the `GDELTTone(...)`
construction); pydantic validation can reject out-of-range parser values.
The schema tone is kept in the rational carrier, so the model requires all
six fields to be finite: nan fails every pydantic comparison and an
infinity violates a two-sided bound, exactly as in the source.  (The one
divergence: pydantic would also accept `+inf` in the three fields bounded
only below, since `inf >= 0` holds in Python; such tones are outside the
model's carrier and mapped to `none`.  No settled claim quantifies over
records carrying them.) -/
def toneOfRecord (t : GKGTone) : Option GDELTTone :=
  match t.tone, t.positive_pct, t.negative_pct, t.polarity,
      t.activity_density, t.self_group_ref with
  | .finite o, .finite p, .finite n, .finite pol, .finite act, .finite sr =>
    mkGDELTTone o p n pol act sr
  | _, _, _, _, _, _ => none

/-- One step of the theme-counts aggregation: add a `GKGCount` to the
insertion-ordered dictionary, summing numbers of an already-present
`count_type`. -/
def addCount (acc : List (PyStr × ℤ)) (c : GKGCount) : List (PyStr × ℤ) :=
  if acc.any (fun kv => kv.1 = c.count_type) then
    acc.map (fun kv => if kv.1 = c.count_type then (kv.1, kv.2 + c.number) else kv)
  else acc ++ [(c.count_type, c.number)]

/-- The grouped-by-`count_type` sums over the record's counts (the first
`for count_entry in record.counts` loop). -/
def groupedCounts (counts : List GKGCount) : List (PyStr × ℤ) :=
  counts.foldl addCount []

/-- The `Dict` comprehension defaulting every theme to count 1 (duplicate
themes collapse to one key, as in a Python dict). -/
def defaultThemeCounts (themes : List PyStr) : List (PyStr × ℤ) :=
  themes.foldl
    (fun acc t => if acc.any (fun kv => kv.1 = t) then acc else acc ++ [(t, 1)]) []

/-- The `theme_counts` dictionary of `convert_gkg_to_signals`: sum count
numbers grouped by `count_type`; when the record has no counts, default
every theme to count 1. -/
def sharedThemeCounts (record : GKGRecord) : List (PyStr × ℤ) :=
  if (groupedCounts record.counts).isEmpty then defaultThemeCounts record.themes
  else groupedCounts record.counts

/-- Sum of the values of the theme-counts dictionary (`total_count`). -/
def totalThemeCount (record : GKGRecord) : ℤ :=
  ((sharedThemeCounts record).map (fun kv => kv.2)).sum

/-- The derived `intensity`: `min(total_count / 500, 1.0)`. -/
def sharedIntensity (record : GKGRecord) : ℚ :=
  min (Rat.divInt (totalThemeCount record) 500) 1

/-- Python `max(theme_counts, key=theme_counts.get)`: the first key of
maximal value in insertion order. -/
def argmaxCount (h : PyStr × ℤ) (t : List (PyStr × ℤ)) : PyStr :=
  (t.foldl (fun best kv => if kv.2 > best.2 then kv else best) h).1

/-- Rounding of the record timestamp down to its 15-minute bucket
(`timestamp.replace(minute=(minute // 15) * 15, second=0, microsecond=0)`
on an epoch-seconds embedding). -/
def bucket15min (timestamp : ℤ) : ℤ := timestamp - timestamp % 900

/-- The constant source attribution of the converter: GDELT only. -/
def gdeltSources : SourceAttribution :=
  { gdelt := true, google_trends := false, wikipedia := false }

/-- Per-theme `primary_theme` (`max(theme_counts, key=theme_counts.get) if
theme_counts else theme`). -/
def primaryThemeOf (record : GKGRecord) (theme : PyStr) : PyStr :=
  match sharedThemeCounts record with
  | [] => theme
  | h :: t => argmaxCount h t

/-- The `url_hash` field: digest of the source URL, or the `"no_url"`
sentinel. -/
def urlHashOf (record : GKGRecord) : PyStr :=
  if record.source_url.isEmpty then "no_url".toList
  else mdFiveHexDigest record.source_url

/-- The signal built in the body of the `for theme in record.themes` loop:
all fields other than `signal_id` and `primary_theme` recomputation are
shared between the themes of one record. -/
def mkSharedSignal (record : GKGRecord) (locs : List GDELTLocation)
    (primary : GDELTLocation) (tone : GDELTTone) (theme : PyStr) :
    GDELTSignal :=
  { signal_id := record.record_id ++ '_' :: theme,
    timestamp := record.timestamp,
    bucket_15min := bucket15min record.timestamp,
    source_collection_id := record.source_collection,
    locations := locs,
    primary_location := primary,
    themes := record.themes,
    theme_labels := record.themes.map normalize_theme_label,
    theme_counts := sharedThemeCounts record,
    primary_theme := primaryThemeOf record theme,
    tone := tone,
    intensity := sharedIntensity record,
    sentiment_label := "neutral".toList,
    geographic_precision := "country".toList,
    persons := if record.persons.isEmpty then none else some record.persons,
    organizations :=
      if record.organizations.isEmpty then none else some record.organizations,
    source_url := if record.source_url.isEmpty then none else some record.source_url,
    source_outlet := if record.source_name.isEmpty then none else some record.source_name,
    sources := gdeltSources,
    confidence := gdeltSources.confidence_score,
    url_hash := urlHashOf record,
    duplicate_count := 1,
    duplicate_outlets := [] }

/-- Per-theme signal construction with the pydantic field checks of
`GDELTSignal` (`source_collection_id ∈ [1, 3]`, `locations` non-empty,
`intensity, confidence ∈ [0, 1]`; the remaining constrained field,
`duplicate_count = 1 ≥ 1`, always passes): a failed check is the caught
per-theme `ValidationError`. -/
def signalForTheme (record : GKGRecord) (locs : List GDELTLocation)
    (primary : GDELTLocation) (tone : GDELTTone) (theme : PyStr) :
    Option GDELTSignal :=
  if 1 ≤ record.source_collection ∧ record.source_collection ≤ 3 ∧
      ¬locs.isEmpty ∧ 0 ≤ sharedIntensity record ∧ sharedIntensity record ≤ 1 ∧
      0 ≤ gdeltSources.confidence_score ∧ gdeltSources.confidence_score ≤ 1 then
    some (mkSharedSignal record locs primary tone theme)
  else none

/-- Embedding of `convert_gkg_to_signals` (intended semantics, see the
section comment): no themes ⇒ empty list; otherwise prepare the shared
locations and tone (uncaught `ValidationError` ⇒ `Except.error`), then emit
one signal per theme, with per-theme validation failures skipped. -/
def convert_gkg_to_signals (record : GKGRecord) :
    Except PyStr (List GDELTSignal) :=
  if record.themes.isEmpty then .ok []
  else
    match buildSignalLocations record.locations with
    | .error e => .error e
    | .ok (locs, primary) =>
      match toneOfRecord record.tone with
      | none => .error ("ValidationError".toList)
      | some tone =>
        .ok (record.themes.filterMap (signalForTheme record locs primary tone))

/-!  Flow detector, from `app/services/flow_detector.py`.

External ingredients are abstracted as function parameters: the sklearn
TF-IDF pipeline (`tfidfMax`, `none` embedding a raised exception), the
transcendental heat computation `calculate_heat` (`calcHeat`), the
set-iteration-order-dependent `_find_shared_topics` (`sharedFn`), and the
`COUNTRY_METADATA` table (`meta`, country → (name, latitude, longitude)). -/

/-- Topic model from `app/models/schemas.py` (fields the detector uses). -/
structure Topic where
  id : PyStr
  label : PyStr
  count : ℤ
  sample_titles : List PyStr := []
  sources : List PyStr := []
  confidence : ℚ
  deriving DecidableEq, Repr

/-- Python `" ".join(topics).lower().split()` as a finite set of words:
lowercase everything, split on whitespace runs, and collect the distinct
words (`set(...)`). -/
def wordSet (topics : List PyStr) : Finset PyStr :=
  (((List.intercalate [' '] topics).map Char.toLower).splitOnP
      Char.isWhitespace).filter (fun w => ¬w.isEmpty) |>.toFinset

/-- Embedding of `FlowDetector.calculate_similarity`.  Either side empty ⇒
`0.0` immediately.  With sklearn available, the raw maximal cosine
similarity is the oracle `tfidfMax`; a `none` (raised exception, caught) ⇒
`0.0`, otherwise the value clamped into `[0, 1]`.  Without sklearn, the
case-insensitive word-overlap ratio clamped to at most `1.0`. -/
def calculate_similarity (sklearnAvailable : Bool)
    (tfidfMax : List PyStr → List PyStr → Option ℚ)
    (topics_a topics_b : List PyStr) : ℚ :=
  if topics_a.isEmpty ∨ topics_b.isEmpty then 0
  else if ¬sklearnAvailable then
    if wordSet topics_a = ∅ ∨ wordSet topics_b = ∅ then 0
    else
      min 1 (Rat.divInt (((wordSet topics_a ∩ wordSet topics_b).card : ℕ) : ℤ)
        ((min (wordSet topics_a).card (wordSet topics_b).card : ℕ) : ℤ))
  else
    match tfidfMax topics_a topics_b with
    | some m => min 1 (max 0 m)
    | none => 0

/-- Embedding of `FlowDetector.calculate_time_decay` over the reals:
negative time deltas are clamped to zero, then `exp(-Δt / halflife)`. -/
noncomputable def calculate_time_decay (heat_halflife_hours : ℝ)
    (delta_hours : ℝ) : ℝ :=
  Real.exp (-((if delta_hours < 0 then 0 else delta_hours) / heat_halflife_hours))

/-- Flow model from `app/models/flows.py` (`FlowEdge` here, since Mathlib
already claims the name `Flow`; coordinates are the
`[longitude, latitude]` pairs the detector builds). -/
structure FlowEdge where
  from_country : PyStr
  to_country : PyStr
  heat : ℚ
  similarity : ℚ
  time_delta_minutes : ℚ
  shared_topics : List PyStr
  from_coords : List ℚ
  to_coords : List ℚ
  deriving DecidableEq, Repr

/-- Pydantic validation of `Flow`: `heat, similarity ∈ [0, 1]`,
`time_delta_minutes ≥ 0`, both coordinate lists of length exactly 2. -/
def mkFlow (from_country to_country : PyStr) (heat similarity : ℚ)
    (time_delta_minutes : ℚ) (shared_topics : List PyStr)
    (from_coords to_coords : List ℚ) : Option FlowEdge :=
  if 0 ≤ heat ∧ heat ≤ 1 ∧ 0 ≤ similarity ∧ similarity ≤ 1 ∧
      0 ≤ time_delta_minutes ∧ from_coords.length = 2 ∧
      to_coords.length = 2 then
    some { from_country := from_country, to_country := to_country,
           heat := heat, similarity := similarity,
           time_delta_minutes := time_delta_minutes,
           shared_topics := shared_topics, from_coords := from_coords,
           to_coords := to_coords }
  else none

/-- One country's entry of the `trends_by_country` mapping (insertion
order of the dict is the list order); the timestamp is epoch seconds, as
for records. -/
structure CountryTrend where
  country : PyStr
  topics : List Topic
  timestamp : ℤ
  deriving DecidableEq, Repr

/-- The ordered upper-triangle country pairs enumerated by the nested
`for i / for j > i` loops of `detect_flows`. -/
def pairsOf : List CountryTrend → List (CountryTrend × CountryTrend)
  | [] => []
  | x :: xs => xs.map (fun y => (x, y)) ++ pairsOf xs

/-- `abs((timestamp_b - timestamp_a).total_seconds()) / 3600.0`, the pair
time delta in hours. -/
def pairDelta (p : CountryTrend × CountryTrend) : ℚ :=
  Rat.divInt |p.2.timestamp - p.1.timestamp| 3600

/-- The same time delta expressed in minutes (`time_delta * 60.0`). -/
def pairDeltaMinutes (p : CountryTrend × CountryTrend) : ℚ :=
  Rat.divInt |p.2.timestamp - p.1.timestamp| 60

/-- The topic labels extracted for the similarity computation. -/
def topicLabels (ct : CountryTrend) : List PyStr :=
  ct.topics.map (fun t => t.label)

/-- Direction of a flow: the earlier-timestamped country is the source. -/
def pairFrom (p : CountryTrend × CountryTrend) : CountryTrend :=
  if p.1.timestamp ≤ p.2.timestamp then p.1 else p.2

/-- Direction of a flow: the later-timestamped country is the target. -/
def pairTo (p : CountryTrend × CountryTrend) : CountryTrend :=
  if p.1.timestamp ≤ p.2.timestamp then p.2 else p.1

/-- The body of the pair loop of `detect_flows` for one candidate pair:
the result is (increment of `total_flows_computed`, emitted flow), or an
uncaught pydantic error from the `Flow` construction.  `sim` abstracts
`calculate_similarity` (sklearn) and `calcHeat` abstracts
`calculate_heat(similarity, time_delta)` (`similarity × exp(-Δt/h)`,
transcendental); `sharedFn` abstracts `_find_shared_topics`, whose output
order depends on Python set iteration; `meta` is the `COUNTRY_METADATA`
table, country → (name, latitude, longitude). -/
def processPair (sim : List PyStr → List PyStr → ℚ) (calcHeat : ℚ → ℚ → ℚ)
    (sharedFn : List PyStr → List PyStr → List PyStr)
    (meta : PyStr → Option (PyStr × ℚ × ℚ)) (flow_threshold : ℚ)
    (time_window_hours : ℚ) (p : CountryTrend × CountryTrend) :
    Except PyStr (ℕ × Option FlowEdge) :=
  if p.1.topics.isEmpty ∨ p.2.topics.isEmpty then .ok (0, none)
  else if time_window_hours < pairDelta p then .ok (0, none)
  else if calcHeat (sim (topicLabels p.1) (topicLabels p.2)) (pairDelta p) <
      flow_threshold then .ok (1, none)
  else
    match meta (pairFrom p).country, meta (pairTo p).country with
    | some fm, some tm =>
      match mkFlow (pairFrom p).country (pairTo p).country
          (calcHeat (sim (topicLabels p.1) (topicLabels p.2)) (pairDelta p))
          (sim (topicLabels p.1) (topicLabels p.2)) (pairDeltaMinutes p)
          (sharedFn (topicLabels p.1) (topicLabels p.2))
          [fm.2.2, fm.2.1] [tm.2.2, tm.2.1] with
      | some f => .ok (1, some f)
      | none => .error ("ValidationError".toList)
    | _, _ => .ok (1, none)

/-- Left-to-right accumulation over all candidate pairs, mirroring the
nested loops: the first uncaught error aborts the run. -/
def goPairs (sim : List PyStr → List PyStr → ℚ) (calcHeat : ℚ → ℚ → ℚ)
    (sharedFn : List PyStr → List PyStr → List PyStr)
    (meta : PyStr → Option (PyStr × ℚ × ℚ)) (flow_threshold : ℚ)
    (time_window_hours : ℚ) :
    List (CountryTrend × CountryTrend) → Except PyStr (ℕ × List FlowEdge)
  | [] => .ok (0, [])
  | p :: rest =>
    match processPair sim calcHeat sharedFn meta flow_threshold
        time_window_hours p with
    | .error e => .error e
    | .ok (c, of) =>
      match goPairs sim calcHeat sharedFn meta flow_threshold
          time_window_hours rest with
      | .error e => .error e
      | .ok (c2, flows) => .ok (c + c2, (of.toList) ++ flows)

/-- Embedding of the flow-generation half of `FlowDetector.detect_flows`
(lines 406-492 of `flow_detector.py`): enumerate the upper-triangle
country pairs, process each, sort the retained flows descending by heat,
and report the diagnostic `total_flows_computed`.  The hotspot computation
of the same method writes only the independent `hotspots` output and is
omitted. -/
def detect_flows (sim : List PyStr → List PyStr → ℚ) (calcHeat : ℚ → ℚ → ℚ)
    (sharedFn : List PyStr → List PyStr → List PyStr)
    (meta : PyStr → Option (PyStr × ℚ × ℚ)) (flow_threshold : ℚ)
    (time_window_hours : ℚ) (trends : List CountryTrend) :
    Except PyStr (List FlowEdge × ℕ) :=
  match goPairs sim calcHeat sharedFn meta flow_threshold time_window_hours
      (pairsOf trends) with
  | .error e => .error e
  | .ok (total, flows) =>
    .ok (flows.insertionSort (fun f g => g.heat ≤ f.heat), total)

/-!  Downloader, from `app/services/gdelt_downloader.py`.

The network, the filesystem cache and the clock are abstracted: `oracle ts
attempt` is the HTTP outcome of the given attempt against timestamp `ts`
(success stands for a 200 whose body also unzips cleanly), `cached` is the
`csv_path.exists()` check, and `prevOf` stands for the datetime arithmetic
of `get_previous_timestamp`.  The returned event trace records every HTTP
attempt and every backoff sleep, in order; the result is `none` exactly
when `download_file` raised `GDELTDownloadError`. -/

/-- Outcome of one HTTP GET in `download_file`: 200, 404, or any of the
retried conditions (other status, network error, timeout). -/
inductive HttpOutcome where
  | success
  | notFound
  | otherError
  deriving DecidableEq, Repr

/-- Observable downloader actions: an HTTP attempt (timestamp and 0-based
attempt index) or an exponential-backoff sleep of the given seconds. -/
inductive DlEvent where
  | attempt (ts : PyStr) (n : ℕ)
  | sleep (seconds : ℕ)
  deriving DecidableEq, Repr

/-- The retry loop of `download_file` (`for attempt in
range(max_attempts)` with `max_attempts = 3`): a 200 returns the extracted
path; a 404 raises immediately with no backoff; other failures sleep
`5 * 2 ^ attempt` seconds and retry, except after the final attempt. -/
def downloadFileFrom (oracle : PyStr → ℕ → HttpOutcome) (ts : PyStr) :
    ℕ → ℕ → Option PyStr × List DlEvent
  | 0, _ => (none, [])
  | rem + 1, a =>
    match oracle ts a with
    | .success => (some (ts ++ ".gkg.csv".toList), [.attempt ts a])
    | .notFound => (none, [.attempt ts a])
    | .otherError =>
      if rem = 0 then (none, [.attempt ts a])
      else
        let r := downloadFileFrom oracle ts rem (a + 1)
        (r.1, .attempt ts a :: .sleep (5 * 2 ^ a) :: r.2)

/-- Embedding of `GDELTDownloader.download_file`: a cache hit
short-circuits the network entirely, otherwise the three-attempt retry
loop runs; `none` embeds a raised `GDELTDownloadError`. -/
def download_file (oracle : PyStr → ℕ → HttpOutcome) (cached : PyStr → Bool)
    (ts : PyStr) : Option PyStr × List DlEvent :=
  if cached ts then (some (ts ++ ".gkg.csv".toList), [])
  else downloadFileFrom oracle ts 3 0

/-- Embedding of `GDELTDownloader.download_latest`: try the current
interval; on `GDELTDownloadError` fall back to the previous interval
exactly once; a second failure is caught and returned as `none` (the
function itself never raises). -/
def download_latest (oracle : PyStr → ℕ → HttpOutcome)
    (cached : PyStr → Bool) (prevOf : PyStr → PyStr) (ts : PyStr) :
    Option PyStr × List DlEvent :=
  match download_file oracle cached ts with
  | (some p, evs) => (some p, evs)
  | (none, evs) =>
    let r := download_file oracle cached (prevOf ts)
    (r.1, evs ++ r.2)

/-!  Helper lemmas about the Python-string primitives. -/

/-- Splitting never yields the empty list of chunks. -/
theorem pySplit_ne_nil (sep : Char) (s : PyStr) : pySplit sep s ≠ [] := by
  induction s with
  | nil => simp [pySplit]
  | cons c cs ih => simp only [pySplit]; split <;> simp

/-- Every character of a chunk of `pySplit` is a character of the input. -/
theorem mem_of_mem_pySplit (sep : Char) (s : PyStr) :
    ∀ b ∈ pySplit sep s, ∀ c ∈ b, c ∈ s := by
  induction s with
  | nil =>
    intro b hb c hc
    simp [pySplit] at hb
    subst hb
    simp at hc
  | cons x xs ih =>
    intro b hb c hc
    simp only [pySplit] at hb
    by_cases hx : x = sep
    · rw [if_pos hx] at hb
      rcases List.mem_cons.mp hb with hb1 | hb2
      · subst hb1; simp at hc
      · exact List.mem_cons_of_mem x (ih b hb2 c hc)
    · rw [if_neg hx] at hb
      rcases List.mem_cons.mp hb with hb1 | hb2
      · subst hb1
        rcases List.mem_cons.mp hc with hc1 | hc2
        · subst hc1; exact List.mem_cons_self _ _
        · cases hr : pySplit sep xs with
          | nil => exact absurd hr (pySplit_ne_nil sep xs)
          | cons hd tl =>
            rw [hr] at hc2
            exact List.mem_cons_of_mem x
              (ih hd (hr ▸ List.mem_cons_self hd tl) c hc2)
      · cases hr : pySplit sep xs with
        | nil => exact absurd hr (pySplit_ne_nil sep xs)
        | cons hd tl =>
          rw [hr] at hb2
          exact List.mem_cons_of_mem x
            (ih b (hr ▸ List.mem_cons_of_mem hd hb2) c hc)

/-- Characters dropped by `dropWhile` all satisfy the predicate, so the
remaining suffix decides the all-satisfy question. -/
theorem forall_mem_dropWhile_iff (p : Char → Bool) (s : PyStr) :
    (∀ c ∈ s.dropWhile p, p c) ↔ ∀ c ∈ s, p c := by
  induction s with
  | nil => simp
  | cons x xs ih =>
    by_cases hx : p x
    · simp only [List.dropWhile_cons, hx, if_true, List.mem_cons]
      constructor
      · intro h c hc
        rcases hc with hc1 | hc2
        · subst hc1; exact hx
        · exact ih.mp h c hc2
      · intro h c hc
        exact ih.mpr (fun d hd => h d (Or.inr hd)) c hc
    · simp [List.dropWhile_cons, hx]

/-- A string strips to the empty string exactly when it is all whitespace. -/
theorem pyStrip_eq_nil_iff (s : PyStr) :
    pyStrip s = [] ↔ ∀ c ∈ s, c.isWhitespace := by
  unfold pyStrip pyStripLeft
  rw [List.reverse_eq_nil_iff, List.dropWhile_eq_nil_iff]
  constructor
  · intro h
    exact (forall_mem_dropWhile_iff _ s).mp
      (fun c hc => h c (List.mem_reverse.mpr hc))
  · intro h c hc
    exact h c ((List.dropWhile_sublist _).subset (List.mem_reverse.mp hc))

/-- Splitting a separator-free string yields a single chunk. -/
theorem pySplit_eq_single (sep : Char) (s : PyStr) (h : sep ∉ s) :
    pySplit sep s = [s] := by
  induction s with
  | nil => rfl
  | cons x xs ih =>
    have hx : x ≠ sep := fun he => h (he ▸ List.mem_cons_self x xs)
    have hxs : sep ∉ xs := fun hm => h (List.mem_cons_of_mem x hm)
    simp only [pySplit, ih hxs, if_neg hx, List.headD, List.tail]

/-- Splitting after a leading separator-free chunk peels it off. -/
theorem pySplit_append_sep (sep : Char) (b t : PyStr) (h : sep ∉ b) :
    pySplit sep (b ++ sep :: t) = b :: pySplit sep t := by
  induction b with
  | nil => simp [pySplit]
  | cons x xs ih =>
    have hx : x ≠ sep := fun he => h (he ▸ List.mem_cons_self x xs)
    have hxs : sep ∉ xs := fun hm => h (List.mem_cons_of_mem x hm)
    simp only [List.cons_append, pySplit, List.append_eq]
    rw [ih hxs, if_neg hx]
    rfl

/-- Splitting is a left inverse of joining on the separator, for non-empty
block lists whose blocks avoid the separator. -/
theorem pySplit_intercalate (sep : Char) (bs : List PyStr) (hne : bs ≠ [])
    (h : ∀ b ∈ bs, sep ∉ b) :
    pySplit sep (List.intercalate [sep] bs) = bs := by
  induction bs with
  | nil => exact absurd rfl hne
  | cons b rest ih =>
    cases rest with
    | nil =>
      simp only [List.intercalate, List.intersperse, List.flatten,
        List.append_nil]
      exact pySplit_eq_single sep b (h b (List.mem_cons_self b []))
    | cons b2 rest2 =>
      have hjoin : List.intercalate [sep] (b :: b2 :: rest2) =
          b ++ sep :: List.intercalate [sep] (b2 :: rest2) := by
        simp [List.intercalate, List.intersperse]
      rw [hjoin, pySplit_append_sep sep _ _ (h b (List.mem_cons_self b _)),
        ih (by simp) (fun x hx => h x (List.mem_cons_of_mem b hx))]

/-!  Lemmas about the locations parser (claim C4). -/

/-- The early whitespace exit of `parse_v2_locations` is redundant: the
function is exactly a `filterMap` of the per-block parser over the
semicolon split. -/
theorem parse_v2_locations_eq_filterMap (s : PyStr) :
    parse_v2_locations s = (pySplit ';' s).filterMap parseLocBlock := by
  unfold parse_v2_locations
  split
  case isTrue h =>
    have hws : ∀ c ∈ s, c.isWhitespace :=
      (pyStrip_eq_nil_iff s).mp (List.isEmpty_iff.mp h)
    symm
    rw [List.filterMap_eq_nil_iff]
    intro b hb
    have hb0 : pyStrip b = [] := (pyStrip_eq_nil_iff b).mpr
      (fun c hc => hws c (mem_of_mem_pySplit ';' s b hb c hc))
    simp only [parseLocBlock, hb0]
    rfl
  case isFalse => rfl

/-- A block with fewer than seven `#`-fields is rejected. -/
theorem parseLocBlock_short (b : PyStr)
    (h : (pySplit '#' (pyStrip b)).length < 7) : parseLocBlock b = none := by
  simp only [parseLocBlock]
  split
  · rfl
  · simp [h]

/-- A block whose (non-empty) type code fails integer parsing is
rejected. -/
theorem parseLocBlock_bad_type (b : PyStr)
    (hne : ¬((pySplit '#' (pyStrip b)).getD 0 []).isEmpty)
    (hint : pyInt? ((pySplit '#' (pyStrip b)).getD 0 []) = none) :
    parseLocBlock b = none := by
  simp only [parseLocBlock]
  split
  · rfl
  · split
    · rfl
    · have hint2 : pyInt? ((pySplit '#' (pyStrip b))[0]?.getD []) = none := by
        rw [← List.getD_eq_getElem?_getD]
        exact hint
      simp [hne, hint2]

/-!  Lemmas about the tone parser (claim C5). -/

/-- The decimal numeral in `overflowBound` is `2^1024 - 2^970`, the exact
round-to-nearest overflow boundary of an IEEE-754 double. -/
theorem overflowBound_eq : overflowBound = ((2 ^ 1024 - 2 ^ 970 : ℤ) : ℚ) := by
  norm_num [overflowBound]

/-- A successful seven-value float chain needs every one of the first
seven fields to parse as a float. -/
theorem parseToneFloats_isSome (vs : List PyStr)
    (tup : PyFloat × PyFloat × PyFloat × PyFloat × PyFloat × PyFloat × PyFloat)
    (h : parseToneFloats vs = some tup) :
    ∀ i < 7, (pyFloat? (vs.getD i [])).isSome := by
  intro i hi
  by_contra hnone
  rw [Option.not_isSome_iff_eq_none, List.getD_eq_getElem?_getD] at hnone
  interval_cases i <;>
    (unfold parseToneFloats at h; simp [hnone] at h)

/-- A successful seven-value float chain parses the first field to the
first component and the seventh field to the last component. -/
theorem parseToneFloats_fields (vs : List PyStr)
    (tup : PyFloat × PyFloat × PyFloat × PyFloat × PyFloat × PyFloat × PyFloat)
    (h : parseToneFloats vs = some tup) :
    pyFloat? (vs.getD 0 []) = some tup.1 ∧
    pyFloat? (vs.getD 6 []) = some tup.2.2.2.2.2.2 := by
  unfold parseToneFloats at h
  simp only [Option.bind_eq_bind, Option.bind_eq_some, Option.some.injEq] at h
  obtain ⟨a, ha, b, hb, c, hc, d, hd, e, he, f, hf, g, hg, ht⟩ := h
  subst ht
  exact ⟨by simpa using ha, by simpa using hg⟩

/-- When all seven fields parse as floats, the float chain succeeds. -/
theorem parseToneFloats_total (vs : List PyStr)
    (h : ∀ i < 7, (pyFloat? (vs.getD i [])).isSome) :
    (parseToneFloats vs).isSome := by
  obtain ⟨a, ha⟩ := Option.isSome_iff_exists.mp (h 0 (by norm_num))
  obtain ⟨b, hb⟩ := Option.isSome_iff_exists.mp (h 1 (by norm_num))
  obtain ⟨c, hc⟩ := Option.isSome_iff_exists.mp (h 2 (by norm_num))
  obtain ⟨d, hd⟩ := Option.isSome_iff_exists.mp (h 3 (by norm_num))
  obtain ⟨e, he⟩ := Option.isSome_iff_exists.mp (h 4 (by norm_num))
  obtain ⟨f, hf⟩ := Option.isSome_iff_exists.mp (h 5 (by norm_num))
  obtain ⟨g, hg⟩ := Option.isSome_iff_exists.mp (h 6 (by norm_num))
  simp only [List.getD_eq_getElem?_getD] at ha hb hc hd he hf hg
  have heq : parseToneFloats vs = some (a, b, c, d, e, f, g) := by
    simp [parseToneFloats, ha, hb, hc, hd, he, hf, hg]
  rw [heq]
  rfl

/-- A tone result extracted from the caught-path option carries the first
parsed float verbatim in its `tone` field. -/
theorem parseToneValues_ok_some (vs : List PyStr) (t : GKGTone)
    (h : parseToneValues vs = .ok (some t)) :
    pyFloat? (vs.getD 0 []) = some t.tone := by
  unfold parseToneValues at h
  cases hf : parseToneFloats vs with
  | none => rw [hf] at h; exact absurd h (by simp)
  | some tup =>
    obtain ⟨a, b, c, d, e, f, g⟩ := tup
    have ha := (parseToneFloats_fields vs _ hf).1
    rw [hf] at h
    dsimp only at h
    cases hg : intOfFloat g with
    | ok w =>
      rw [hg] at h
      simp only [Except.ok.injEq, Option.some.injEq] at h
      rw [← h]
      exact ha
    | valueError => rw [hg] at h; exact absurd h (by simp)
    | overflowError => rw [hg] at h; exact absurd h (by simp)

/-- C5, amended.  `parse_v2_tone` returns the all-zero tone — never a
partially-filled one — when the input has fewer than seven comma-separated
values, when any of the first seven values fails float parsing (the caught
`ValueError`), and when the seventh value parses to nan (`int(nan)` raises
`ValueError`, also caught).  But it is not exception-free: when all seven
values parse and the seventh is an infinity (the literal `inf`, or any
decimal at or past the double-overflow bound), `int(float(values[6]))`
raises `OverflowError`, which `except (ValueError, IndexError)` does not
catch — the `.error` case.  On a successful parse the values are copied
verbatim with no range clamping, so the overall tone equals the input's
first parsed value and lies in [-100, 100] exactly when that value does
(the claim's unconditional [-100, 100] bound is false, see the
counterexample). -/
theorem parse_v2_tone_amended :
    (∀ s : PyStr, (pySplit ',' s).length < 7 → parse_v2_tone s = .ok zeroTone) ∧
    (∀ s : PyStr, ∀ i < 7, pyFloat? ((pySplit ',' s).getD i []) = none →
      parse_v2_tone s = .ok zeroTone) ∧
    (∀ s : PyStr, pyFloat? ((pySplit ',' s).getD 6 []) = some PyFloat.nan →
      parse_v2_tone s = .ok zeroTone) ∧
    (∀ s : PyStr, ¬(pyStrip s).isEmpty → 7 ≤ (pySplit ',' s).length →
      (∀ i < 7, (pyFloat? ((pySplit ',' s).getD i [])).isSome) →
      (pyFloat? ((pySplit ',' s).getD 6 []) = some PyFloat.inf ∨
        pyFloat? ((pySplit ',' s).getD 6 []) = some PyFloat.negInf) →
      parse_v2_tone s = .error ("OverflowError".toList)) ∧
    (∀ (s : PyStr) (t : GKGTone), ¬(pyStrip s).isEmpty →
      7 ≤ (pySplit ',' s).length →
      parseToneValues (pySplit ',' s) = .ok (some t) →
      parse_v2_tone s = .ok t ∧
        pyFloat? ((pySplit ',' s).getD 0 []) = some t.tone) := by
  refine ⟨?_, ?_, ?_, ?_, ?_⟩
  · intro s h
    unfold parse_v2_tone
    split <;> simp [h]
  · intro s i hi hnone
    have hff : parseToneFloats (pySplit ',' s) = none := by
      cases hp : parseToneFloats (pySplit ',' s) with
      | none => rfl
      | some tup =>
        have := parseToneFloats_isSome _ tup hp i hi
        rw [hnone] at this
        exact absurd this (by simp)
    have hv : parseToneValues (pySplit ',' s) = .ok none := by
      unfold parseToneValues
      rw [hff]
    unfold parse_v2_tone
    split
    · rfl
    split
    · rfl
    rw [hv]
  · intro s h6
    have hv : parseToneValues (pySplit ',' s) = .ok none := by
      cases hp : parseToneFloats (pySplit ',' s) with
      | none =>
        unfold parseToneValues
        rw [hp]
      | some tup =>
        obtain ⟨a, b, c, d, e, f, g⟩ := tup
        have hg := (parseToneFloats_fields _ _ hp).2
        rw [h6] at hg
        injection hg with hgg
        subst hgg
        unfold parseToneValues
        rw [hp]
        rfl
    unfold parse_v2_tone
    split
    · rfl
    split
    · rfl
    rw [hv]
  · intro s hne hlen hall hinf
    obtain ⟨tup, hp⟩ := Option.isSome_iff_exists.mp (parseToneFloats_total _ hall)
    obtain ⟨a, b, c, d, e, f, g⟩ := tup
    have hg := (parseToneFloats_fields _ _ hp).2
    have hv : parseToneValues (pySplit ',' s) = .error ("OverflowError".toList) := by
      rcases hinf with h6 | h6 <;>
        (rw [h6] at hg; injection hg with hgg; subst hgg;
         unfold parseToneValues; rw [hp]; rfl)
    unfold parse_v2_tone
    rw [if_neg hne, if_neg (by omega), hv]
  · intro s t hne hlen hp
    refine ⟨?_, parseToneValues_ok_some _ t hp⟩
    unfold parse_v2_tone
    rw [if_neg hne, if_neg (by omega), hp]

/-- C5 counterexample: the seven-value string "200,0,0,0,0,0,10" parses
successfully with overall tone 200, outside [-100, 100] — the parser
applies no range clamping — and the strings "0,0,0,0,0,0,inf" and
"0,0,0,0,0,0," followed by four hundred `9` digits both raise an uncaught
`OverflowError`, so `parse_v2_tone` is not exception-free either. -/
theorem parse_v2_tone_counterexample :
    parse_v2_tone ("200,0,0,0,0,0,10".toList) =
      .ok { tone := .finite 200, positive_pct := .finite 0,
            negative_pct := .finite 0, polarity := .finite 0,
            activity_density := .finite 0, self_group_ref := .finite 0,
            word_count := 10 } ∧
    ¬((200 : ℚ) ≤ 100) ∧
    parse_v2_tone ("0,0,0,0,0,0,inf".toList) = .error ("OverflowError".toList) ∧
    parse_v2_tone ("0,0,0,0,0,0,".toList ++ List.replicate 400 '9') =
      .error ("OverflowError".toList) :=
  ⟨rfl, by decide, rfl, rfl⟩

/-- C5 witness: the amended theorem applied at concrete inputs — a
two-value string, a string with a non-numeric first value, and a string
with a nan seventh value all give the all-zero tone; a seventh value of
`1e400` (past the double range) raises `OverflowError`; and a well-formed
tone string whose first value uses exponent notation parses verbatim. -/
theorem parse_v2_tone_witness :
    parse_v2_tone ("1,2".toList) = .ok zeroTone ∧
    parse_v2_tone ("a,0,0,0,0,0,0".toList) = .ok zeroTone ∧
    parse_v2_tone ("0,0,0,0,0,0,nan".toList) = .ok zeroTone ∧
    parse_v2_tone ("0,0,0,0,0,0,1e400".toList) = .error ("OverflowError".toList) ∧
    (parse_v2_tone ("1e2,2.1,5.6,7.7,21.3,2.5,523".toList) =
        .ok { tone := .finite 100, positive_pct := .finite (Rat.divInt 21 10),
              negative_pct := .finite (Rat.divInt 28 5),
              polarity := .finite (Rat.divInt 77 10),
              activity_density := .finite (Rat.divInt 213 10),
              self_group_ref := .finite (Rat.divInt 5 2), word_count := 523 } ∧
      pyFloat? ((pySplit ',' ("1e2,2.1,5.6,7.7,21.3,2.5,523".toList)).getD 0 []) =
        some (PyFloat.finite 100)) := by
  refine ⟨parse_v2_tone_amended.1 _ (by decide),
          parse_v2_tone_amended.2.1 _ 0 (by decide) (by decide),
          parse_v2_tone_amended.2.2.1 _ (by decide),
          parse_v2_tone_amended.2.2.2.1 _ (by decide) (by decide) (by decide)
            (by decide),
          ?_⟩
  have h := parse_v2_tone_amended.2.2.2.2 ("1e2,2.1,5.6,7.7,21.3,2.5,523".toList)
    { tone := .finite 100, positive_pct := .finite (Rat.divInt 21 10),
      negative_pct := .finite (Rat.divInt 28 5),
      polarity := .finite (Rat.divInt 77 10),
      activity_density := .finite (Rat.divInt 213 10),
      self_group_ref := .finite (Rat.divInt 5 2), word_count := 523 }
    (by decide) (by decide) rfl
  exact h

/-- C4, amended.  Dropping really is per-block: `parse_v2_locations` is
the blockwise `filterMap` of the single-block parser over the semicolon
split, so one bad block never affects its neighbours; blocks with fewer
than seven `#`-fields are dropped, and so are blocks whose non-empty type
code fails integer parsing.  But, against the claim, a block with empty
`full_name`/`country_code` is kept, and an out-of-range coordinate is kept
verbatim — only an *empty* coordinate field is zeroed (final conjunct:
empty names, latitude 999.5 kept as-is, empty longitude zeroed). -/
theorem parse_v2_locations_amended :
    (∀ s : PyStr, parse_v2_locations s = (pySplit ';' s).filterMap parseLocBlock) ∧
    (∀ bs : List PyStr, bs ≠ [] → (∀ b ∈ bs, ';' ∉ b) →
      parse_v2_locations (List.intercalate [';'] bs) = bs.filterMap parseLocBlock) ∧
    (∀ b : PyStr, (pySplit '#' (pyStrip b)).length < 7 → parseLocBlock b = none) ∧
    (∀ b : PyStr, ¬((pySplit '#' (pyStrip b)).getD 0 []).isEmpty →
      pyInt? ((pySplit '#' (pyStrip b)).getD 0 []) = none →
      parseLocBlock b = none) ∧
    parseLocBlock ("1###a#b#999.5#".toList) =
      some { location_type := 1, full_name := [], country_code := [],
             adm1_code := "a".toList, adm2_code := "b".toList,
             latitude := Rat.divInt 1999 2, longitude := 0, feature_id := [],
             char_offset := 0 } := by
  refine ⟨parse_v2_locations_eq_filterMap, ?_, parseLocBlock_short,
    parseLocBlock_bad_type, by decide⟩
  intro bs h1 h2
  rw [parse_v2_locations_eq_filterMap, pySplit_intercalate ';' bs h1 h2]

/-- C4 counterexample: the single block `1###a#b#999.5#-200.25` has empty
`full_name` and `country_code` and both coordinates out of range, yet it
is kept, with the out-of-range coordinates preserved verbatim (neither
clamped nor zeroed) — the claim's "dropped" and "clamped" behaviours both
fail here. -/
theorem parse_v2_locations_counterexample :
    parse_v2_locations ("1###a#b#999.5#-200.25".toList) =
      [{ location_type := 1, full_name := [], country_code := [],
         adm1_code := "a".toList, adm2_code := "b".toList,
         latitude := Rat.divInt 1999 2, longitude := Rat.divInt (-801) 4,
         feature_id := [], char_offset := 0 }] ∧
    (90 : ℚ) < Rat.divInt 1999 2 ∧ Rat.divInt (-801) 4 < -180 := by
  decide

/-- C4 witness: the amended theorem applied at concrete inputs — a record
of one good and one short block parses the good block alone, a
four-field block is dropped, and a non-numeric type code is dropped. -/
theorem parse_v2_locations_witness :
    parse_v2_locations (List.intercalate [';']
        ["1#A#US#a#b#1.5#2.5".toList, "xx".toList]) =
      ["1#A#US#a#b#1.5#2.5".toList, "xx".toList].filterMap parseLocBlock ∧
    parseLocBlock ("1#A#US".toList) = none ∧
    parseLocBlock ("z#A#US#a#b#1#2".toList) = none := by
  refine ⟨parse_v2_locations_amended.2.1 _ (by decide) (by decide),
          parse_v2_locations_amended.2.2.1 _ (by decide),
          parse_v2_locations_amended.2.2.2.1 _ (by decide) (by decide)⟩

/-- C9: `get_country_centroid` is total — for a country code in the
centroid table it returns that table entry, and for any code absent from
the table it returns `(0.0, 0.0, country_code)` instead of raising, so the
converter's fallback never fails but can silently yield coordinates
(0, 0). -/
theorem get_country_centroid_total (country_code : PyStr) :
    (∀ v, COUNTRY_CENTROIDS.lookup country_code = some v →
      get_country_centroid country_code = v) ∧
    (COUNTRY_CENTROIDS.lookup country_code = none →
      get_country_centroid country_code = (0, 0, country_code)) := by
  constructor
  · intro v hv
    unfold get_country_centroid
    rw [hv]
  · intro h
    unfold get_country_centroid
    rw [h]

/-- C9 witness: the table entry for "US" (37.0902, -95.7129 in
ten-thousandths) and the (0, 0) fallback for the unknown code "ZZ". -/
theorem get_country_centroid_witness :
    get_country_centroid ("US".toList) =
      (Rat.divInt 370902 10000, Rat.divInt (-957129) 10000,
        "United States".toList) ∧
    get_country_centroid ("ZZ".toList) = (0, 0, "ZZ".toList) :=
  ⟨(get_country_centroid_total ("US".toList)).1 _ (by decide),
   (get_country_centroid_total ("ZZ".toList)).2 (by decide)⟩

/-- C6: for the time-decay function with positive half-life `h`,
`decay 0 = 1`, `decay h` is within 0.001 of `e⁻¹` (it equals it exactly),
and every negative time delta is clamped to zero, giving decay 1. -/
theorem calculate_time_decay_spec (h : ℝ) (hp : 0 < h) :
    calculate_time_decay h 0 = 1 ∧
    |calculate_time_decay h h - Real.exp (-1)| ≤ 1 / 1000 ∧
    ∀ x : ℝ, 0 < x → calculate_time_decay h (-x) = 1 := by
  refine ⟨?_, ?_, ?_⟩
  · unfold calculate_time_decay
    rw [if_neg (lt_irrefl 0)]
    simp
  · unfold calculate_time_decay
    rw [if_neg (not_lt.mpr hp.le), div_self hp.ne']
    simp
  · intro x hx
    unfold calculate_time_decay
    rw [if_pos (by linarith)]
    simp

/-- C6 witness: the spec applied at the default 6-hour half-life, with the
negative delta instantiated at -1 hour. -/
theorem calculate_time_decay_witness :
    calculate_time_decay 6 0 = 1 ∧
    |calculate_time_decay 6 6 - Real.exp (-1)| ≤ 1 / 1000 ∧
    calculate_time_decay 6 (-1) = 1 := by
  have h := calculate_time_decay_spec 6 (by norm_num)
  exact ⟨h.1, h.2.1, h.2.2 1 one_pos⟩

/-- C10: `calculate_similarity` is total and bounded — it always returns a
value in [0, 1]; either side empty returns 0 immediately; and a raised
vectorization exception (oracle `none`) is caught and yields 0. -/
theorem calculate_similarity_spec (sklearnAvailable : Bool)
    (tfidfMax : List PyStr → List PyStr → Option ℚ)
    (topics_a topics_b : List PyStr) :
    (0 ≤ calculate_similarity sklearnAvailable tfidfMax topics_a topics_b ∧
      calculate_similarity sklearnAvailable tfidfMax topics_a topics_b ≤ 1) ∧
    (topics_a = [] ∨ topics_b = [] →
      calculate_similarity sklearnAvailable tfidfMax topics_a topics_b = 0) ∧
    (sklearnAvailable = true → tfidfMax topics_a topics_b = none →
      calculate_similarity sklearnAvailable tfidfMax topics_a topics_b = 0) := by
  refine ⟨?_, ?_, ?_⟩
  · unfold calculate_similarity
    split
    · exact ⟨le_refl 0, zero_le_one⟩
    split
    · split
      · exact ⟨le_refl 0, zero_le_one⟩
      · constructor
        · refine le_min zero_le_one ?_
          rw [Rat.divInt_eq_div]
          positivity
        · exact min_le_left _ _
    · split
      · exact ⟨le_min zero_le_one (le_max_left 0 _), min_le_left _ _⟩
      · exact ⟨le_refl 0, zero_le_one⟩
  · intro hab
    unfold calculate_similarity
    rw [if_pos]
    rcases hab with h | h
    · exact Or.inl (by simp [h])
    · exact Or.inr (by simp [h])
  · intro hav htf
    subst hav
    unfold calculate_similarity
    split
    · rfl
    · simp [htf]

/-- C10 witness: the bound at a concrete fallback-mode input, the
empty-side zero, and the caught-exception zero, all at explicit inputs. -/
theorem calculate_similarity_witness :
    (0 ≤ calculate_similarity false (fun _ _ => none)
        ["war economy".toList] ["war peace".toList] ∧
      calculate_similarity false (fun _ _ => none)
        ["war economy".toList] ["war peace".toList] ≤ 1) ∧
    calculate_similarity true (fun _ _ => none) [] ["a".toList] = 0 ∧
    calculate_similarity true (fun _ _ => none)
      ["a".toList] ["b".toList] = 0 :=
  ⟨(calculate_similarity_spec false (fun _ _ => none)
      ["war economy".toList] ["war peace".toList]).1,
   (calculate_similarity_spec true (fun _ _ => none) [] ["a".toList]).2.1
      (Or.inl rfl),
   (calculate_similarity_spec true (fun _ _ => none)
      ["a".toList] ["b".toList]).2.2 rfl rfl⟩

/-- C8: when the current interval's first attempt returns HTTP 404 (and
the file is not cached), `download_latest` raises no backoff sleep for it
and immediately runs exactly one `download_file` call against the previous
interval, whose outcome becomes the result; and whenever both the current
and the previous interval's downloads fail, `download_latest` returns
`none` rather than raising (its `Option` result is the whole interface). -/
theorem download_latest_spec :
    (∀ (oracle : PyStr → ℕ → HttpOutcome) (cached : PyStr → Bool)
        (prevOf : PyStr → PyStr) (ts : PyStr),
      cached ts = false → oracle ts 0 = HttpOutcome.notFound →
      download_latest oracle cached prevOf ts =
        ((download_file oracle cached (prevOf ts)).1,
          DlEvent.attempt ts 0 :: (download_file oracle cached (prevOf ts)).2)) ∧
    (∀ (oracle : PyStr → ℕ → HttpOutcome) (cached : PyStr → Bool)
        (prevOf : PyStr → PyStr) (ts : PyStr),
      (download_file oracle cached ts).1 = none →
      (download_file oracle cached (prevOf ts)).1 = none →
      (download_latest oracle cached prevOf ts).1 = none) := by
  constructor
  · intro oracle cached prevOf ts hc h404
    have hdf : download_file oracle cached ts = (none, [DlEvent.attempt ts 0]) := by
      unfold download_file downloadFileFrom
      rw [hc]
      simp [h404]
    unfold download_latest
    rw [hdf]
    rfl
  · intro oracle cached prevOf ts h1 h2
    unfold download_latest
    rcases hdf : download_file oracle cached ts with ⟨o, evs⟩
    rw [hdf] at h1
    cases o with
    | some p => simp at h1
    | none => simpa using h2

/-- C8 witness: with an oracle that always answers 404 and an empty cache,
the trace is exactly one attempt per interval with no sleeps, and the
result is `none`. -/
theorem download_latest_witness :
    download_latest (fun _ _ => HttpOutcome.notFound) (fun _ => false)
        (fun _ => "B".toList) ("A".toList) =
      (none, [DlEvent.attempt ("A".toList) 0, DlEvent.attempt ("B".toList) 0]) ∧
    (download_latest (fun _ _ => HttpOutcome.notFound) (fun _ => false)
        (fun _ => "B".toList) ("A".toList)).1 = none := by
  have h1 := download_latest_spec.1 (fun _ _ => HttpOutcome.notFound)
    (fun _ => false) (fun _ => "B".toList) ("A".toList) rfl rfl
  have h2 := download_latest_spec.2 (fun _ _ => HttpOutcome.notFound)
    (fun _ => false) (fun _ => "B".toList) ("A".toList) (by decide) (by decide)
  refine ⟨?_, h2⟩
  rw [h1]
  decide

/-!  Lemmas about the converter (claims C1, C2, C3). -/

/-- A successful locations step never yields an empty locations list. -/
theorem buildSignalLocations_ok_ne_nil (locs : List GKGLocation)
    (ls : List GDELTLocation) (p : GDELTLocation)
    (h : buildSignalLocations locs = .ok (ls, p)) : ¬ls.isEmpty := by
  unfold buildSignalLocations at h
  cases locs with
  | nil =>
    dsimp only at h
    cases hm : mkGDELTLocation ("US".toList) (get_country_centroid ("US".toList)).2.2
        none (get_country_centroid ("US".toList)).1
        (get_country_centroid ("US".toList)).2.1 1 none none 1 with
    | none => rw [hm] at h; simp at h
    | some pl =>
      rw [hm] at h
      simp only [Except.ok.injEq, Prod.mk.injEq] at h
      rw [← h.1]
      simp
  | cons l0 rest =>
    dsimp only at h
    cases hm : (l0 :: rest).mapM toSignalLocation with
    | none => rw [hm] at h; simp at h
    | some ls2 =>
      rw [hm] at h
      cases ls2 with
      | nil => simp at h
      | cons x xs =>
        simp only [Except.ok.injEq, Prod.mk.injEq] at h
        rw [← h.1]
        simp

/-- Elimination for a successful per-theme construction: the signal's
fields are the shared values, and the validation bounds hold. -/
theorem signalForTheme_some_eq (record : GKGRecord)
    (locs : List GDELTLocation) (primary : GDELTLocation) (tone : GDELTTone)
    (theme : PyStr) (s : GDELTSignal)
    (h : signalForTheme record locs primary tone theme = some s) :
    s.intensity = sharedIntensity record ∧
    s.confidence = gdeltSources.confidence_score ∧
    s.theme_counts = sharedThemeCounts record ∧
    s.locations = locs ∧ s.tone = tone ∧ s.primary_location = primary ∧
    s.signal_id = record.record_id ++ '_' :: theme ∧
    s.themes = record.themes ∧
    0 ≤ s.intensity ∧ s.intensity ≤ 1 := by
  unfold signalForTheme at h
  split at h
  case isTrue hcond =>
    obtain ⟨-, -, -, h4, h5, -, -⟩ := hcond
    cases h
    exact ⟨rfl, rfl, rfl, rfl, rfl, rfl, rfl, rfl, h4, h5⟩
  case isFalse => exact absurd h (by simp)

/-- Elimination for a successful conversion with a non-empty theme list:
the locations and tone steps succeeded, and the output is the per-theme
`filterMap`. -/
theorem convert_ok_elim (record : GKGRecord) (sigs : List GDELTSignal)
    (hth : ¬record.themes.isEmpty)
    (h : convert_gkg_to_signals record = .ok sigs) :
    ∃ locs primary tone,
      buildSignalLocations record.locations = .ok (locs, primary) ∧
      toneOfRecord record.tone = some tone ∧
      sigs = record.themes.filterMap (signalForTheme record locs primary tone) := by
  unfold convert_gkg_to_signals at h
  rw [if_neg hth] at h
  cases hb : buildSignalLocations record.locations with
  | error e => rw [hb] at h; simp at h
  | ok lp =>
    rcases lp with ⟨locs, primary⟩
    rw [hb] at h
    cases ht : toneOfRecord record.tone with
    | none => rw [ht] at h; simp at h
    | some tone =>
      rw [ht] at h
      simp only [Except.ok.injEq] at h
      exact ⟨locs, primary, tone, rfl, rfl, h.symm⟩

/-- Replacing a key's value preserves the key list of the dictionary. -/
theorem addCount_key_mem (acc : List (PyStr × ℤ)) (c : GKGCount) (k : PyStr)
    (hk : k ∈ (addCount acc c).map Prod.fst) :
    k ∈ acc.map Prod.fst ∨ k = c.count_type := by
  unfold addCount at hk
  split at hk
  · left
    rw [List.map_map] at hk
    have hfun : (Prod.fst ∘ fun kv : PyStr × ℤ =>
        if kv.1 = c.count_type then (kv.1, kv.2 + c.number) else kv) = Prod.fst := by
      funext kv
      by_cases hkv : kv.1 = c.count_type <;> simp [hkv]
    rwa [hfun] at hk
  · rw [List.map_append] at hk
    rcases List.mem_append.mp hk with h | h
    · exact Or.inl h
    · right; simpa using h

/-- Every key of the grouped counts is one of the record's count types. -/
theorem foldl_addCount_keys (cs : List GKGCount) (acc : List (PyStr × ℤ))
    (k : PyStr) (hk : k ∈ ((cs.foldl addCount acc).map Prod.fst)) :
    k ∈ acc.map Prod.fst ∨ k ∈ cs.map GKGCount.count_type := by
  induction cs generalizing acc with
  | nil => exact Or.inl hk
  | cons c rest ih =>
    rcases ih (addCount acc c) hk with h1 | h2
    · rcases addCount_key_mem acc c k h1 with h | h
      · exact Or.inl h
      · exact Or.inr (by simp [h])
    · exact Or.inr (List.mem_cons_of_mem _ h2)

/-- Every key of the themes-default dictionary is one of the themes. -/
theorem defaultFill_keys (themes : List PyStr) (acc : List (PyStr × ℤ))
    (k : PyStr)
    (hk : k ∈ (themes.foldl (fun acc t =>
        if acc.any (fun kv => kv.1 = t) then acc else acc ++ [(t, 1)])
        acc).map Prod.fst) :
    k ∈ acc.map Prod.fst ∨ k ∈ themes := by
  induction themes generalizing acc with
  | nil => exact Or.inl hk
  | cons t rest ih =>
    rcases ih _ hk with h1 | h2
    · dsimp only at h1
      split at h1
      · exact Or.inl h1
      · rw [List.map_append] at h1
        rcases List.mem_append.mp h1 with h | h
        · exact Or.inl h
        · right; simp at h; simp [h]
    · exact Or.inr (List.mem_cons_of_mem _ h2)

/-- Every key of `theme_counts` comes from a count type or a theme. -/
theorem sharedThemeCounts_keys (record : GKGRecord) (k : PyStr)
    (hk : k ∈ (sharedThemeCounts record).map Prod.fst) :
    k ∈ record.counts.map GKGCount.count_type ∨ k ∈ record.themes := by
  unfold sharedThemeCounts at hk
  split at hk
  · rcases defaultFill_keys record.themes [] k hk with h | h
    · simp at h
    · exact Or.inr h
  · rcases foldl_addCount_keys record.counts [] k hk with h | h
    · simp at h
    · exact Or.inl h

/-- The shared intensity is nonnegative when the count total is. -/
theorem sharedIntensity_nonneg (record : GKGRecord)
    (h : 0 ≤ totalThemeCount record) : 0 ≤ sharedIntensity record := by
  unfold sharedIntensity
  refine le_min ?_ zero_le_one
  rw [Rat.divInt_eq_div]
  have : (0 : ℚ) ≤ (totalThemeCount record : ℚ) := by exact_mod_cast h
  positivity

/-- The shared intensity is clamped to at most one. -/
theorem sharedIntensity_le_one (record : GKGRecord) :
    sharedIntensity record ≤ 1 :=
  min_le_right _ _

/-- A `filterMap` whose function always succeeds is a `map`. -/
theorem filterMap_eq_map_of_forall {α β : Type} (l : List α)
    (f : α → Option β) (g : α → β) (h : ∀ x ∈ l, f x = some (g x)) :
    l.filterMap f = l.map g := by
  induction l with
  | nil => rfl
  | cons x xs ih =>
    rw [List.filterMap_cons, h x (List.mem_cons_self x xs), List.map_cons,
      ih (fun y hy => h y (List.mem_cons_of_mem x hy))]

/-- The synthesized `"US"`-centroid fallback location built by the
converter for records without parsed locations. -/
def usCentroidLoc : GDELTLocation :=
  { country_code := "US".toList, country_name := "United States".toList,
    location_name := none, latitude := Rat.divInt 370902 10000,
    longitude := Rat.divInt (-957129) 10000, location_type := 1,
    feature_id := none, char_offset := none, mention_count := 1 }

/-- C1 (behaviour the repository's tests assert; the committed adapter
raises `AttributeError` instead — see the doc comment above
`toSignalLocation`): a record with a non-empty theme list whose shared
fields pass validation converts to exactly one signal per theme, all
sharing the same `locations` and `tone`, with identities
`record_id ++ "_" ++ theme`; those identities are pairwise distinct
whenever the themes are. -/
theorem convert_fanout (record : GKGRecord) (sigs : List GDELTSignal)
    (hth : ¬record.themes.isEmpty)
    (hconv : convert_gkg_to_signals record = .ok sigs)
    (hsc1 : 1 ≤ record.source_collection)
    (hsc3 : record.source_collection ≤ 3)
    (htot : 0 ≤ totalThemeCount record) :
    sigs.length = record.themes.length ∧
    (∀ s1 ∈ sigs, ∀ s2 ∈ sigs, s1.locations = s2.locations ∧ s1.tone = s2.tone) ∧
    sigs.map (fun s => s.signal_id) =
      record.themes.map (fun t => record.record_id ++ '_' :: t) ∧
    (record.themes.Nodup → (sigs.map (fun s => s.signal_id)).Nodup) := by
  obtain ⟨locs, primary, tone, hb, ht, hsig⟩ :=
    convert_ok_elim record sigs hth hconv
  have hcond : 1 ≤ record.source_collection ∧ record.source_collection ≤ 3 ∧
      ¬locs.isEmpty ∧ 0 ≤ sharedIntensity record ∧ sharedIntensity record ≤ 1 ∧
      0 ≤ gdeltSources.confidence_score ∧ gdeltSources.confidence_score ≤ 1 :=
    ⟨hsc1, hsc3, buildSignalLocations_ok_ne_nil _ _ _ hb,
     sharedIntensity_nonneg record htot, sharedIntensity_le_one record,
     by decide, by decide⟩
  have hmap : sigs = record.themes.map (mkSharedSignal record locs primary tone) := by
    rw [hsig]
    refine filterMap_eq_map_of_forall _ _ _ (fun th hth2 => ?_)
    unfold signalForTheme
    rw [if_pos hcond]
  refine ⟨?_, ?_, ?_, ?_⟩
  · rw [hmap, List.length_map]
  · intro s1 hs1 s2 hs2
    rw [hmap] at hs1 hs2
    obtain ⟨t1, -, rfl⟩ := List.mem_map.mp hs1
    obtain ⟨t2, -, rfl⟩ := List.mem_map.mp hs2
    exact ⟨rfl, rfl⟩
  · rw [hmap, List.map_map]
    rfl
  · intro hnd
    rw [hmap, List.map_map]
    refine List.Nodup.map ?_ hnd
    intro a b hab
    simp only [Function.comp, mkSharedSignal] at hab
    have := List.append_cancel_left hab
    simpa using this

/-- C1 witness: the fan-out theorem at a concrete two-theme record with no
locations and no counts. -/
def exC1record : GKGRecord :=
  { record_id := "R1".toList, timestamp := 0,
    themes := ["THEME_A".toList, "THEME_B".toList] }

/-- The signals the conversion of `exC1record` yields. -/
def exC1sigs : List GDELTSignal :=
  (convert_gkg_to_signals exC1record).toOption.getD []

/-- C1 witness: two themes give two signals with shared fields and the two
distinct identities. -/
theorem convert_fanout_witness :
    exC1sigs.length = exC1record.themes.length ∧
    (∀ s1 ∈ exC1sigs, ∀ s2 ∈ exC1sigs,
      s1.locations = s2.locations ∧ s1.tone = s2.tone) ∧
    exC1sigs.map (fun s => s.signal_id) =
      exC1record.themes.map (fun t => exC1record.record_id ++ '_' :: t) ∧
    (exC1record.themes.Nodup → (exC1sigs.map (fun s => s.signal_id)).Nodup) :=
  convert_fanout exC1record exC1sigs (by decide) rfl (by decide) (by decide)
    (by decide)

/-- C2 (behaviour the repository's tests assert; the committed adapter
raises `AttributeError` before any signal is built — see C1): every signal
converted from a record without locations carries the `"US"` centroid
fallback as `primary_location`, with coordinates exactly equal to the
`COUNTRY_CENTROIDS` entry for `"US"` (37.0902, -95.7129 in
ten-thousandths). -/
theorem convert_centroid_fallback (record : GKGRecord)
    (sigs : List GDELTSignal) (s : GDELTSignal)
    (hloc : record.locations = []) (hth : ¬record.themes.isEmpty)
    (hconv : convert_gkg_to_signals record = .ok sigs) (hs : s ∈ sigs) :
    s.primary_location = usCentroidLoc ∧
    s.primary_location.country_code = "US".toList ∧
    s.primary_location.latitude = Rat.divInt 370902 10000 ∧
    s.primary_location.longitude = Rat.divInt (-957129) 10000 ∧
    COUNTRY_CENTROIDS.lookup ("US".toList) =
      some (Rat.divInt 370902 10000, Rat.divInt (-957129) 10000,
        "United States".toList) := by
  obtain ⟨locs, primary, tone, hb, ht, hsig⟩ :=
    convert_ok_elim record sigs hth hconv
  rw [hloc] at hb
  have hb2 : buildSignalLocations ([] : List GKGLocation) =
      .ok ([usCentroidLoc], usCentroidLoc) := by rfl
  rw [hb2] at hb
  simp only [Except.ok.injEq, Prod.mk.injEq] at hb
  obtain ⟨hlocs, hprimary⟩ := hb
  rw [hsig] at hs
  obtain ⟨th, hthm, hsf⟩ := List.mem_filterMap.mp hs
  have hp := (signalForTheme_some_eq record locs primary tone th s hsf).2.2.2.2.2.1
  rw [hp, ← hprimary]
  exact ⟨rfl, rfl, rfl, rfl, by decide⟩

/-- Concrete one-theme record with no locations, for the C2 witness. -/
def exC2record : GKGRecord :=
  { record_id := "R2".toList, timestamp := 0, themes := ["PROTEST".toList] }

/-- The signals the conversion of `exC2record` yields. -/
def exC2sigs : List GDELTSignal :=
  (convert_gkg_to_signals exC2record).toOption.getD []

/-- An arbitrary inhabitant of `GDELTSignal`, used only as the default of
`List.getD` in witnesses. -/
def dummySignal : GDELTSignal :=
  { signal_id := [], timestamp := 0, bucket_15min := 0,
    source_collection_id := 1, locations := [usCentroidLoc],
    primary_location := usCentroidLoc, themes := [], theme_labels := [],
    theme_counts := [], primary_theme := [],
    tone := { overall := 0, positive_pct := 0, negative_pct := 0,
              polarity := 0, activity_density := 0, self_reference := 0 },
    intensity := 0, sentiment_label := [], geographic_precision := [],
    persons := none, organizations := none, source_url := none,
    source_outlet := none, sources := {}, confidence := 0, url_hash := [],
    duplicate_count := 1, duplicate_outlets := [] }

/-- C2 witness: the centroid-fallback theorem at the concrete locationless
record, instantiated at its one converted signal. -/
theorem convert_centroid_fallback_witness :
    (exC2sigs.getD 0 dummySignal).primary_location = usCentroidLoc ∧
    (exC2sigs.getD 0 dummySignal).primary_location.country_code = "US".toList ∧
    (exC2sigs.getD 0 dummySignal).primary_location.latitude =
      Rat.divInt 370902 10000 ∧
    (exC2sigs.getD 0 dummySignal).primary_location.longitude =
      Rat.divInt (-957129) 10000 ∧
    COUNTRY_CENTROIDS.lookup ("US".toList) =
      some (Rat.divInt 370902 10000, Rat.divInt (-957129) 10000,
        "United States".toList) :=
  convert_centroid_fallback exC2record exC2sigs
    (exC2sigs.getD 0 dummySignal) rfl (by decide) rfl (by decide)

/-- C3, amended: every signal the converter returns has `intensity` and
`confidence` in [0, 1], and the key set of its `theme_counts` is contained
in the record's count types together with its themes; the key set is
contained in the themes alone only when the record has no counts — with
counts present the keys are the count types, which need not be themes (see
the counterexample). -/
theorem convert_theme_counts_amended (record : GKGRecord)
    (sigs : List GDELTSignal) (s : GDELTSignal)
    (hconv : convert_gkg_to_signals record = .ok sigs) (hs : s ∈ sigs) :
    (0 ≤ s.intensity ∧ s.intensity ≤ 1 ∧
      0 ≤ s.confidence ∧ s.confidence ≤ 1) ∧
    (record.counts = [] → ∀ k ∈ s.theme_counts.map Prod.fst,
      k ∈ record.themes) ∧
    (∀ k ∈ s.theme_counts.map Prod.fst,
      k ∈ record.counts.map GKGCount.count_type ∨ k ∈ record.themes) := by
  by_cases hth : record.themes.isEmpty
  · unfold convert_gkg_to_signals at hconv
    rw [if_pos hth] at hconv
    simp only [Except.ok.injEq] at hconv
    rw [← hconv] at hs
    simp at hs
  · obtain ⟨locs, primary, tone, hb, ht, hsig⟩ :=
      convert_ok_elim record sigs hth hconv
    rw [hsig] at hs
    obtain ⟨th, hthm, hsf⟩ := List.mem_filterMap.mp hs
    obtain ⟨hint, hconf, htc, -, -, -, -, -, hige, hile⟩ :=
      signalForTheme_some_eq record locs primary tone th s hsf
    refine ⟨⟨hige, hile, ?_, ?_⟩, ?_, ?_⟩
    · rw [hconf]; decide
    · rw [hconf]; decide
    · intro hcounts k hk
      rw [htc] at hk
      unfold sharedThemeCounts groupedCounts at hk
      rw [hcounts] at hk
      simp only [List.foldl_nil, List.isEmpty_nil, if_true] at hk
      rcases defaultFill_keys record.themes [] k hk with h | h
      · simp at h
      · exact h
    · intro k hk
      rw [htc] at hk
      exact sharedThemeCounts_keys record k hk

/-- Concrete record whose only count type (`KILL`) is not among its
themes, for the C3 counterexample and witness. -/
def exC3record : GKGRecord :=
  { record_id := "R3".toList, timestamp := 0, themes := ["PROTEST".toList],
    counts := [{ count_type := "KILL".toList, number := 12 }] }

/-- The signals the conversion of `exC3record` yields. -/
def exC3sigs : List GDELTSignal :=
  (convert_gkg_to_signals exC3record).toOption.getD []

/-- C3 counterexample: the converted signal's `theme_counts` key set is
exactly the count type `KILL`, which is not in the record's theme list —
the claimed invariant `theme_counts keys ⊆ themes` fails. -/
theorem convert_theme_counts_counterexample :
    exC3sigs.map (fun s => s.theme_counts.map Prod.fst) =
      [["KILL".toList]] ∧
    ¬("KILL".toList ∈ exC3record.themes) := by decide

/-- C3 witness: the amended theorem at the concrete record — bounds on the
derived fields, and the `KILL` key accounted for by the count types. -/
theorem convert_theme_counts_witness :
    (0 ≤ (exC3sigs.getD 0 dummySignal).intensity ∧
      (exC3sigs.getD 0 dummySignal).intensity ≤ 1 ∧
      0 ≤ (exC3sigs.getD 0 dummySignal).confidence ∧
      (exC3sigs.getD 0 dummySignal).confidence ≤ 1) ∧
    ("KILL".toList ∈ exC3record.counts.map GKGCount.count_type ∨
      "KILL".toList ∈ exC3record.themes) := by
  have h := convert_theme_counts_amended exC3record exC3sigs
    (exC3sigs.getD 0 dummySignal) rfl (by decide)
  exact ⟨h.1, h.2.2 ("KILL".toList) (by decide)⟩

/-!  Lemmas about the flow detector (claim C7). -/

/-- A pair is a counted candidate when both topic lists are non-empty and
its time delta lies within the window. -/
def isCandidate (time_window_hours : ℚ) (p : CountryTrend × CountryTrend) :
    Bool :=
  !p.1.topics.isEmpty && !p.2.topics.isEmpty &&
    decide (pairDelta p ≤ time_window_hours)

/-- A successfully validated flow carries the heat and time delta it was
built from. -/
theorem mkFlow_some_eq (fc tc : PyStr) (heat similarity tdm : ℚ)
    (st : List PyStr) (fco tco : List ℚ) (f : FlowEdge)
    (h : mkFlow fc tc heat similarity tdm st fco tco = some f) :
    f.heat = heat ∧ f.time_delta_minutes = tdm := by
  unfold mkFlow at h
  split at h
  · cases h
    exact ⟨rfl, rfl⟩
  · exact absurd h (by simp)

/-- Per-pair accounting: a processed pair increments the diagnostic count
exactly when it is a candidate, and an emitted flow passed the threshold
and carries its in-window time delta in minutes. -/
theorem processPair_spec (sim : List PyStr → List PyStr → ℚ)
    (calcHeat : ℚ → ℚ → ℚ)
    (sharedFn : List PyStr → List PyStr → List PyStr)
    (meta : PyStr → Option (PyStr × ℚ × ℚ)) (thr w : ℚ)
    (p : CountryTrend × CountryTrend) (c : ℕ) (of : Option FlowEdge)
    (h : processPair sim calcHeat sharedFn meta thr w p = .ok (c, of)) :
    c = (if isCandidate w p then 1 else 0) ∧
    ∀ f, of = some f → thr ≤ f.heat ∧ f.time_delta_minutes = pairDeltaMinutes p ∧
      pairDelta p ≤ w := by
  unfold processPair at h
  split at h
  case isTrue hempty =>
    simp only [Except.ok.injEq, Prod.mk.injEq] at h
    obtain ⟨hc, hof⟩ := h
    subst hc
    constructor
    · rcases hempty with he | he <;> simp [isCandidate, he]
    · intro f hf
      rw [← hof] at hf
      exact absurd hf (by simp)
  case isFalse hne =>
    push_neg at hne
    split at h
    case isTrue hwin =>
      simp only [Except.ok.injEq, Prod.mk.injEq] at h
      obtain ⟨hc, hof⟩ := h
      subst hc
      constructor
      · have : ¬(pairDelta p ≤ w) := not_le.mpr hwin
        simp [isCandidate, this]
      · intro f hf
        rw [← hof] at hf
        exact absurd hf (by simp)
    case isFalse hwin =>
      have hcand : isCandidate w p = true := by
        simp [isCandidate, hne.1, hne.2, not_lt.mp hwin]
      split at h
      case isTrue hheat =>
        simp only [Except.ok.injEq, Prod.mk.injEq] at h
        obtain ⟨hc, hof⟩ := h
        subst hc
        refine ⟨by rw [hcand, if_pos rfl], ?_⟩
        intro f hf
        rw [← hof] at hf
        exact absurd hf (by simp)
      case isFalse hheat =>
        split at h
        case h_1 fm tm hfm htm =>
          split at h
          case h_1 f0 hmk =>
            simp only [Except.ok.injEq, Prod.mk.injEq] at h
            obtain ⟨hc, hof⟩ := h
            subst hc
            refine ⟨by rw [hcand, if_pos rfl], ?_⟩
            intro f hf
            rw [← hof] at hf
            cases hf
            obtain ⟨hh, ht⟩ := mkFlow_some_eq _ _ _ _ _ _ _ _ _ hmk
            exact ⟨hh ▸ not_lt.mp hheat, ht, not_lt.mp hwin⟩
          case h_2 hmk => exact absurd h (by simp)
        case h_2 =>
          simp only [Except.ok.injEq, Prod.mk.injEq] at h
          obtain ⟨hc, hof⟩ := h
          subst hc
          refine ⟨by rw [hcand, if_pos rfl], ?_⟩
          intro f hf
          rw [← hof] at hf
          exact absurd hf (by simp)

/-- Accumulated accounting over a pair list: the total is the candidate
count, and every collected flow passed the threshold within the window. -/
theorem goPairs_spec (sim : List PyStr → List PyStr → ℚ)
    (calcHeat : ℚ → ℚ → ℚ)
    (sharedFn : List PyStr → List PyStr → List PyStr)
    (meta : PyStr → Option (PyStr × ℚ × ℚ)) (thr w : ℚ)
    (ps : List (CountryTrend × CountryTrend)) (total : ℕ)
    (flows : List FlowEdge)
    (h : goPairs sim calcHeat sharedFn meta thr w ps = .ok (total, flows)) :
    total = ps.countP (isCandidate w) ∧
    ∀ f ∈ flows, thr ≤ f.heat ∧
      ∃ p ∈ ps, f.time_delta_minutes = pairDeltaMinutes p ∧ pairDelta p ≤ w := by
  induction ps generalizing total flows with
  | nil =>
    unfold goPairs at h
    simp only [Except.ok.injEq, Prod.mk.injEq] at h
    obtain ⟨h1, h2⟩ := h
    subst h1
    subst h2
    exact ⟨rfl, by simp⟩
  | cons p rest ih =>
    unfold goPairs at h
    cases hp : processPair sim calcHeat sharedFn meta thr w p with
    | error e => rw [hp] at h; simp at h
    | ok co =>
      rcases co with ⟨c, of⟩
      rw [hp] at h
      cases hg : goPairs sim calcHeat sharedFn meta thr w rest with
      | error e => rw [hg] at h; simp at h
      | ok tf =>
        rcases tf with ⟨c2, flows2⟩
        rw [hg] at h
        simp only [Except.ok.injEq, Prod.mk.injEq] at h
        obtain ⟨h1, h2⟩ := h
        obtain ⟨hc, hof⟩ := processPair_spec _ _ _ _ _ _ _ _ _ hp
        obtain ⟨ihc, ihf⟩ := ih c2 flows2 hg
        constructor
        · rw [← h1, hc, ihc, List.countP_cons]
          by_cases hcand : isCandidate w p
          · simp [hcand, Nat.add_comm]
          · simp [hcand]
        · intro f hf
          rw [← h2] at hf
          rcases List.mem_append.mp hf with hf1 | hf2
          · cases hofv : of with
            | none => rw [hofv] at hf1; simp at hf1
            | some f0 =>
              rw [hofv] at hf1
              simp only [Option.toList_some, List.mem_singleton] at hf1
              rw [hf1]
              obtain ⟨hh, htd, hpw⟩ := hof f0 hofv
              exact ⟨hh, p, List.mem_cons_self p rest, htd, hpw⟩
          · obtain ⟨hh, q, hq, htd, hpw⟩ := ihf f hf2
            exact ⟨hh, q, List.mem_cons_of_mem p hq, htd, hpw⟩

/-- An in-window delta in hours bounds the delta in minutes by sixty times
the window. -/
theorem pairDeltaMinutes_le (p : CountryTrend × CountryTrend) (w : ℚ)
    (h : pairDelta p ≤ w) : pairDeltaMinutes p ≤ w * 60 := by
  unfold pairDelta at h
  unfold pairDeltaMinutes
  rw [Rat.divInt_eq_div] at h ⊢
  push_cast at h ⊢
  have h60 : |(p.2.timestamp : ℚ) - (p.1.timestamp : ℚ)| / 60 =
      |(p.2.timestamp : ℚ) - (p.1.timestamp : ℚ)| / 3600 * 60 := by
    ring
  rw [h60]
  exact mul_le_mul_of_nonneg_right h (by norm_num)

/-- C7: in `detect_flows`, `total_flows_computed` counts exactly the
candidate pairs (both topic lists non-empty and time delta within the
window) — so every in-window candidate is counted even when its heat falls
below the threshold; every returned flow has heat at least the threshold
and an in-window time delta; and a pair whose delta exceeds the window is
skipped outright, contributing neither a flow nor a count. -/
theorem detect_flows_spec (sim : List PyStr → List PyStr → ℚ)
    (calcHeat : ℚ → ℚ → ℚ)
    (sharedFn : List PyStr → List PyStr → List PyStr)
    (meta : PyStr → Option (PyStr × ℚ × ℚ)) (thr w : ℚ)
    (trends : List CountryTrend) (flows : List FlowEdge) (total : ℕ)
    (h : detect_flows sim calcHeat sharedFn meta thr w trends =
      .ok (flows, total)) :
    total = (pairsOf trends).countP (isCandidate w) ∧
    (∀ f ∈ flows, thr ≤ f.heat ∧ f.time_delta_minutes ≤ w * 60) ∧
    (∀ p : CountryTrend × CountryTrend, w < pairDelta p →
      processPair sim calcHeat sharedFn meta thr w p = .ok (0, none)) := by
  unfold detect_flows at h
  cases hg : goPairs sim calcHeat sharedFn meta thr w (pairsOf trends) with
  | error e => rw [hg] at h; simp at h
  | ok tf =>
    rcases tf with ⟨t, fl⟩
    rw [hg] at h
    simp only [Except.ok.injEq, Prod.mk.injEq] at h
    obtain ⟨hfl, ht⟩ := h
    obtain ⟨hc, hf⟩ := goPairs_spec sim calcHeat sharedFn meta thr w
      (pairsOf trends) t fl hg
    refine ⟨by rw [← ht, hc], ?_, ?_⟩
    · intro f hfm
      rw [← hfl] at hfm
      have hmem : f ∈ fl :=
        (List.perm_insertionSort (fun f g => g.heat ≤ f.heat) fl).mem_iff.mp hfm
      obtain ⟨hheat, p, hp, htdm, hpw⟩ := hf f hmem
      refine ⟨hheat, ?_⟩
      rw [htdm]
      exact pairDeltaMinutes_le p w hpw
    · intro p hpw
      unfold processPair
      split <;> rfl

/-- A one-topic payload for the C7 witness. -/
def exTopicA : Topic :=
  { id := "t1".toList, label := "war".toList, count := 1,
    sample_titles := [], sources := [], confidence := 1 }

/-- Four countries for the C7 witness: two candidates one hour apart, one
far outside the 24-hour window, one with no topics. -/
def exC7trends : List CountryTrend :=
  [{ country := "AA".toList, topics := [exTopicA], timestamp := 0 },
   { country := "BB".toList, topics := [exTopicA], timestamp := 3600 },
   { country := "CC".toList, topics := [exTopicA], timestamp := 360000 },
   { country := "DD".toList, topics := [], timestamp := 7200 }]

/-- Metadata table covering the two candidate countries of the witness. -/
def exC7meta : PyStr → Option (PyStr × ℚ × ℚ) := fun c =>
  (([("AA".toList, ("Aland".toList, (0 : ℚ), (0 : ℚ))),
     ("BB".toList, ("Bland".toList, (0 : ℚ), (0 : ℚ)))] :
    List (PyStr × (PyStr × ℚ × ℚ))).lookup c)

/-- Constant similarity oracle for the C7 witness. -/
def exC7sim : List PyStr → List PyStr → ℚ := fun _ _ => 1

/-- Heat oracle for the C7 witness (similarity passed through). -/
def exC7heat : ℚ → ℚ → ℚ := fun s _ => s

/-- Shared-topics oracle for the C7 witness. -/
def exC7shared : List PyStr → List PyStr → List PyStr := fun _ _ => []

/-- The default flow threshold 0.5. -/
def exC7thr : ℚ := Rat.divInt 1 2

/-- The witness run of the flow detector. -/
def exC7result : Except PyStr (List FlowEdge × ℕ) :=
  detect_flows exC7sim exC7heat exC7shared exC7meta exC7thr 24 exC7trends

/-- The flows of the witness run. -/
def exC7flows : List FlowEdge := (exC7result.toOption.getD ([], 0)).1

/-- C7 witness: the accounting theorem at the concrete four-country run,
with the skip conclusion instantiated at the 99-hour out-of-window pair. -/
theorem detect_flows_witness :
    (exC7result.toOption.getD ([], 0)).2 =
      (pairsOf exC7trends).countP (isCandidate 24) ∧
    (∀ f ∈ exC7flows, exC7thr ≤ f.heat ∧ f.time_delta_minutes ≤ 24 * 60) ∧
    processPair exC7sim exC7heat exC7shared exC7meta exC7thr 24
      ({ country := "AA".toList, topics := [exTopicA], timestamp := 0 },
       { country := "CC".toList, topics := [exTopicA], timestamp := 360000 }) =
      .ok (0, none) := by
  have h := detect_flows_spec exC7sim exC7heat exC7shared exC7meta exC7thr 24
    exC7trends exC7flows ((exC7result.toOption.getD ([], 0)).2) rfl
  exact ⟨h.1, h.2.1, h.2.2 _ (by decide)⟩
